import Mathlib

/-!
# rod-mcp: command handlers over a browser session

A shallow embedding of `tools/common.go`: the seventeen tool declarations, their
handlers, and the registry that pairs them.

* A handler is a function from an argument bag to a computation in `M`, a state
  monad over the session and the log of calls, with two ways of stopping early:
  a returned error (`errors.New`) and a Go run-time panic (a failed unchecked type
  assertion).
* The browser driver is an external collaborator.  Its answers come from an
  environment `Env`: whether a call fails, and with which message, may depend on
  every call made before it.
* JSON numbers arrive as finite `float64` values; they are represented by the
  rational number they denote.
-/

namespace RodMcp

/-! ## Argument bags -/

/-- A decoded JSON value as found in `request.Params.Arguments`
(`map[string]interface{}`).  Arrays and objects are never inspected by a handler. -/
inductive Value where
  | null
  | bool (b : Bool)
  | num (x : ℚ)
  | str (s : String)
  | composite
  deriving DecidableEq

/-- The argument bag of one invocation. -/
abbrev Args := List (String × Value)

/-- The two-result type assertion `v, ok := x.(string)`: the zero value and `false`
when `x` is missing or not a string. -/
def commaOkString : Option Value → String × Bool
  | some (.str s) => (s, true)
  | _ => ("", false)

/-- The two-result type assertion `v, ok := x.(float64)`. -/
def commaOkFloat : Option Value → ℚ × Bool
  | some (.num x) => (x, true)
  | _ => (0, false)

/-- The two-result type assertion `v, ok := x.(bool)`. -/
def commaOkBool : Option Value → Bool × Bool
  | some (.bool b) => (b, true)
  | _ => (false, false)

/-! ## Calls, environment, state -/

/-- The named keys of `rod/lib/input` that `PressKeyHandler` uses. -/
inductive Key where
  | Enter | Tab | Backspace | Escape | ArrowUp | ArrowDown | ArrowLeft | ArrowRight
  deriving DecidableEq

/-- Values of `proto.InputMouseButton`. -/
inductive MouseButton where
  | none | left | middle | right | back | forward
  deriving DecidableEq

/-- Values of `proto.PageCaptureScreenshotFormat`. -/
inductive ScreenshotFormat where
  | jpeg | png | webp
  deriving DecidableEq

/-- A call a handler makes on the session (`rodCtx`), the page, the keyboard, the
mouse, an element or the browser.  An element is named by the selector that
resolved it. -/
inductive Call where
  | getBrowser
  | ensurePage
  | browserClose
  | navigate (url : String)
  | navigateBack
  | navigateForward
  | reload
  | waitDOMStable (d : Int) (diff : ℚ)
  | insertText (text : String)
  | keyboardPress (key : Key)
  | element (selector : String)
  | elementClick (selector : String) (button : MouseButton) (clickCount : Nat)
  | elementInput (selector : String) (text : String)
  | elementShape (selector : String)
  | elementEval (selector : String) (js : String)
  | elementScreenshot (selector : String) (format : ScreenshotFormat) (quality : Nat)
  | mouseMoveTo (x y : ℚ)
  | mouseDown (button : MouseButton) (clickCount : Nat)
  | mouseUp (button : MouseButton) (clickCount : Nat)
  | setViewport (width height : Int)
  | pageScreenshot (fullPage : Bool)
  | pagePDF (printBackground : Bool)
  | pageEval (js : String)
  deriving DecidableEq

/-- A `proto.DOMRect`: the bounding box of an element's shape. -/
structure Box where
  x : ℚ
  y : ℚ
  width : ℚ
  height : ℚ
  deriving DecidableEq

/-- Everything outside the handlers.  `fail hist c` is the error the call `c`
reports when made after the calls `hist` (`none`: it succeeds). -/
structure Env where
  /-- The error reported by a call, given the calls made before it. -/
  fail : List Call → Call → Option String
  /-- The box of the shape an element reports, given the calls made before. -/
  box : List Call → String → Box
  /-- The `%v` rendering of the value a script evaluates to. -/
  value : List Call → String → String
  /-- The handle of a newly launched browser or a newly opened page. -/
  handle : List Call → Nat
  /-- Rounding of an exact arithmetic result to the nearest `float64`. -/
  round64 : ℚ → ℚ
  /-- The implementation-defined result of converting to `int64` a `float64` whose
  integer part is out of range. -/
  convOOR : ℚ → Int

/-- Modelled from the spec: `types.Context` is not among the sources.  The session
holds "at most one owned browser handle and at most one owned active-page handle". -/
structure Session where
  browser : Option Nat
  page : Option Nat
  deriving DecidableEq

/-- The state a handler runs in: the session, the calls made so far (oldest first)
and the durations, in nanoseconds, passed to `time.Sleep` so far. -/
structure State where
  session : Session
  trace : List Call
  sleeps : List Int
  deriving DecidableEq

/-- How a computation ends: a value, a returned error, or a run-time panic. -/
inductive Outcome (α : Type) where
  | ok (a : α)
  | err (msg : String)
  | panic
  deriving DecidableEq

/-- Computations of the handlers. -/
def M (α : Type) : Type := Env → State → Outcome α × State

/-- Return a value. -/
def M.pure {α : Type} (a : α) : M α := fun _ st => (.ok a, st)

/-- Sequence two computations; an error or a panic ends the run. -/
def M.bind {α β : Type} (m : M α) (f : α → M β) : M β := fun env st =>
  match m env st with
  | (.ok a, st1) => f a env st1
  | (.err e, st1) => (.err e, st1)
  | (.panic, st1) => (.panic, st1)

instance : Monad M where
  pure := M.pure
  bind := M.bind

/-- The statement `return nil, errors.New(msg)`. -/
def errorsNew {α : Type} (msg : String) : M α := fun _ st => (.err msg, st)

/-- A run-time panic. -/
def goPanic {α : Type} : M α := fun _ st => (.panic, st)

/-- The statement `if err != nil { return nil, errors.New(msg err.Error()) }`. -/
def check (err : Option String) (msg : String → String) : M Unit :=
  match err with
  | some e => errorsNew (msg e)
  | none => pure ()

/-- Make a driver call: log it and return the error it reports. -/
def call (c : Call) : M (Option String) := fun env st =>
  (.ok (env.fail st.trace c), { st with trace := st.trace ++ [c] })

/-- The single-result type assertion `x.(string)`: panics when `x` is missing or
not a string. -/
def assertString : Option Value → M String
  | some (.str s) => pure s
  | _ => goPanic

/-- The single-result type assertion `x.(float64)`. -/
def assertFloat : Option Value → M ℚ
  | some (.num x) => pure x
  | _ => goPanic

/-! ## Collaborators from the packages `types` and `utils` -/

/-- Modelled from the spec: `utils.IsHttp` is not among the sources; the spec says
the url "must start with `http://` or `https://`". -/
def IsHttp (url : String) : Bool :=
  "http://".data.isPrefixOf url.data || "https://".data.isPrefixOf url.data

/-- Modelled from the spec: `types.Context.EnsurePage` is not among the sources.  It
"returns the current active page, creating the underlying browser process and a page
if none exists yet", is idempotent once a page exists, and fails with the driver's
error when the launch fails.  The result is the Go pair `(page, err)`. -/
def EnsurePage : M (Option Nat × Option String) := fun env st =>
  let st1 := { st with trace := st.trace ++ [Call.ensurePage] }
  match st.session.page with
  | some p => (.ok (some p, none), st1)
  | none =>
    match env.fail st.trace Call.ensurePage with
    | some e => (.ok (none, some e), st1)
    | none =>
      let b := match st.session.browser with
        | some b => b
        | none => env.handle st.trace
      let p := env.handle st1.trace
      (.ok (some p, none), { st1 with session := { browser := some b, page := some p } })

/-- Modelled from the spec: `types.Context.GetBrowser` is not among the sources.  It
"returns the current browser handle without creating one". -/
def GetBrowser : M (Option Nat) := fun _ st =>
  (.ok st.session.browser, { st with trace := st.trace ++ [Call.getBrowser] })

/-! ## Constants -/

/-- The constant `time.Second`, in nanoseconds. -/
def second : Int := 1000000000

/-- The constant `defaultWaitStableDur = 1 * time.Second`. -/
def defaultWaitStableDur : Int := 1 * second

/-- The constant `defaultDomDiff = 0.2`. -/
def defaultDomDiff : ℚ := ⟨1, 5, by decide, by decide⟩

/-! ## Conversions and formatting -/

/-- Read the environment. -/
def getEnv : M Env := fun env st => (.ok env, st)

/-- The statement `time.Sleep(d)`: log the duration. -/
def sleep (d : Int) : M Unit := fun _ st =>
  (.ok (), { st with sleeps := st.sleeps ++ [d] })

/-- Truncation toward zero. -/
def truncate (x : ℚ) : Int := Int.tdiv x.num x.den

/-- The conversions `int64(x)`, `int(x)` and `time.Duration(x)` of a `float64`
(`int` taken as 64 bits): the fraction is discarded; outside the `int64` range the
result is implementation-defined. -/
def toInt64 (env : Env) (x : ℚ) : Int :=
  if -9223372036854775808 ≤ truncate x ∧ truncate x ≤ 9223372036854775807 then truncate x
  else env.convOOR x

/-- Wrap-around of `int64` arithmetic. -/
def wrap64 (n : Int) : Int :=
  (n + 9223372036854775808) % 18446744073709551616 - 9223372036854775808

/-- The `float64` sum `a + b`. -/
def fadd (env : Env) (a b : ℚ) : ℚ := env.round64 (a + b)

/-- The `float64` quotient `a / b`. -/
def fdiv (env : Env) (a b : ℚ) : ℚ := env.round64 (a / b)

/-- The verb `%t`. -/
def fmtBool (b : Bool) : String := if b then "true" else "false"

/-- The verb `%.1f`: one digit after the point, the exact value rounded half to
even.  (A negative zero, which would print as `-0.0`, has no rational counterpart.) -/
def fmtF1 (x : ℚ) : String :=
  let n := x.num.natAbs * 10
  let q := n / x.den
  let r := n % x.den
  let m := if 2 * r < x.den then q else if x.den < 2 * r then q + 1
    else if q % 2 = 0 then q else q + 1
  (if x < 0 then "-" else "") ++ toString (m / 10) ++ "." ++ toString (m % 10)

/-! ## Script templates -/

/-- The script `SelectorHandler` evaluates on the element: the template with `value` put in for `%s`. -/
def selectorScript (value : String) : String :=
  "() => \x7b\n"
  ++ "\t\t\t\tconst el = this;\n"
  ++ "\t\t\t\tel.value = \""
  ++ value
  ++ "\";\n"
  ++ "\t\t\t\tel.dispatchEvent(new Event(\x27change\x27));\n"
  ++ "\t\t\t\treturn true;\n"
  ++ "\t\t\t\x7d"

/-- The script `SnapshotHandler` evaluates on the page. -/
def snapshotScript : String :=
  "() => \x7b\n"
  ++ "\t\t\t\tfunction captureElementInfo(element, depth = 0, maxDepth = 10) \x7b\n"
  ++ "\t\t\t\t\tif (!element || depth > maxDepth) return null;\n"
  ++ "\t\t\t\t\t\n"
  ++ "\t\t\t\t\tlet info = \x7b\n"
  ++ "\t\t\t\t\t\ttag: element.tagName.toLowerCase(),\n"
  ++ "\t\t\t\t\t\tid: element.id || \"\",\n"
  ++ "\t\t\t\t\t\tclass: element.className || \"\",\n"
  ++ "\t\t\t\t\t\ttext: element.innerText || \"\",\n"
  ++ "\t\t\t\t\t\tattributes: \x7b\x7d,\n"
  ++ "\t\t\t\t\t\tchildren: []\n"
  ++ "\t\t\t\t\t\x7d;\n"
  ++ "\t\t\t\t\t\n"
  ++ "\t\t\t\t\t// 获取元素属性\n"
  ++ "\t\t\t\t\tfor (let attr of element.attributes) \x7b\n"
  ++ "\t\t\t\t\t\tinfo.attributes[attr.name] = attr.value;\n"
  ++ "\t\t\t\t\t\x7d\n"
  ++ "\t\t\t\t\t\n"
  ++ "\t\t\t\t\t// 递归获取子元素\n"
  ++ "\t\t\t\t\tfor (let child of element.children) \x7b\n"
  ++ "\t\t\t\t\t\tlet childInfo = captureElementInfo(child, depth + 1, maxDepth);\n"
  ++ "\t\t\t\t\t\tif (childInfo) \x7b\n"
  ++ "\t\t\t\t\t\t\tinfo.children.push(childInfo);\n"
  ++ "\t\t\t\t\t\t\x7d\n"
  ++ "\t\t\t\t\t\x7d\n"
  ++ "\t\t\t\t\t\n"
  ++ "\t\t\t\t\treturn info;\n"
  ++ "\t\t\t\t\x7d\n"
  ++ "\t\t\t\t\n"
  ++ "\t\t\t\treturn captureElementInfo(document.documentElement);\n"
  ++ "\t\t\t\x7d"

/-- The script `SelectElementHandler` evaluates: `fmt.Sprintf` of the template with `selector`, `getText`, `getAttributes`, in this order. -/
def selectElementScript (selector : String) (getText getAttributes : Bool) : String :=
  "() => \x7b\n"
  ++ "\t\t\t\tconst elements = Array.from(document.querySelectorAll(\""
  ++ selector
  ++ "\"));\n"
  ++ "\t\t\t\treturn elements.map(el => \x7b\n"
  ++ "\t\t\t\t\tconst result = \x7b\n"
  ++ "\t\t\t\t\t\ttagName: el.tagName.toLowerCase(),\n"
  ++ "\t\t\t\t\t\tid: el.id || \"\",\n"
  ++ "\t\t\t\t\t\tclassName: el.className || \"\"\n"
  ++ "\t\t\t\t\t\x7d;\n"
  ++ "\t\t\t\t\t\n"
  ++ "\t\t\t\t\tif ("
  ++ fmtBool getText
  ++ ") \x7b\n"
  ++ "\t\t\t\t\t\tresult.text = el.textContent || \"\";\n"
  ++ "\t\t\t\t\t\x7d\n"
  ++ "\t\t\t\t\t\n"
  ++ "\t\t\t\t\tif ("
  ++ fmtBool getAttributes
  ++ ") \x7b\n"
  ++ "\t\t\t\t\t\tresult.attributes = \x7b\x7d;\n"
  ++ "\t\t\t\t\t\tArray.from(el.attributes).forEach(attr => \x7b\n"
  ++ "\t\t\t\t\t\t\tresult.attributes[attr.name] = attr.value;\n"
  ++ "\t\t\t\t\t\t\x7d);\n"
  ++ "\t\t\t\t\t\x7d\n"
  ++ "\t\t\t\t\t\n"
  ++ "\t\t\t\t\tif (el.tagName === \"INPUT\" || el.tagName === \"TEXTAREA\" || el.tagName === \"SELECT\") \x7b\n"
  ++ "\t\t\t\t\t\tresult.value = el.value || \"\";\n"
  ++ "\t\t\t\t\t\x7d\n"
  ++ "\t\t\t\t\t\n"
  ++ "\t\t\t\t\t// 计算元素的位置和大小\n"
  ++ "\t\t\t\t\tconst rect = el.getBoundingClientRect();\n"
  ++ "\t\t\t\t\tresult.rect = \x7b\n"
  ++ "\t\t\t\t\t\tx: rect.x,\n"
  ++ "\t\t\t\t\t\ty: rect.y,\n"
  ++ "\t\t\t\t\t\twidth: rect.width,\n"
  ++ "\t\t\t\t\t\theight: rect.height\n"
  ++ "\t\t\t\t\t\x7d;\n"
  ++ "\t\t\t\t\t\n"
  ++ "\t\t\t\t\treturn result;\n"
  ++ "\t\t\t\t\x7d);\n"
  ++ "\t\t\t\x7d"

/-- The whole-page script of `GetTextHandler`: `fmt.Sprintf` of the template with `includeHidden`, `trim`, `includeHidden`, `trim`. -/
def pageTextScript (includeHidden trim : Bool) : String :=
  "() => \x7b\n"
  ++ "\t\t\t\t\tconst getVisibleText = (node) => \x7b\n"
  ++ "\t\t\t\t\t\tif (node.nodeType === Node.TEXT_NODE) \x7b\n"
  ++ "\t\t\t\t\t\t\tconst text = node.textContent;\n"
  ++ "\t\t\t\t\t\t\tconst parentStyle = window.getComputedStyle(node.parentElement);\n"
  ++ "\t\t\t\t\t\t\tif ("
  ++ fmtBool includeHidden
  ++ " || (parentStyle.display !== \x27none\x27 && parentStyle.visibility !== \x27hidden\x27)) \x7b\n"
  ++ "\t\t\t\t\t\t\t\treturn "
  ++ fmtBool trim
  ++ " ? text.trim() : text;\n"
  ++ "\t\t\t\t\t\t\t\x7d\n"
  ++ "\t\t\t\t\t\t\treturn \x27\x27;\n"
  ++ "\t\t\t\t\t\t\x7d\n"
  ++ "\t\t\t\t\t\t\n"
  ++ "\t\t\t\t\t\tif (node.nodeType !== Node.ELEMENT_NODE) \x7b\n"
  ++ "\t\t\t\t\t\t\treturn \x27\x27;\n"
  ++ "\t\t\t\t\t\t\x7d\n"
  ++ "\t\t\t\t\t\t\n"
  ++ "\t\t\t\t\t\tconst style = window.getComputedStyle(node);\n"
  ++ "\t\t\t\t\t\tif (!"
  ++ fmtBool includeHidden
  ++ " && (style.display === \x27none\x27 || style.visibility === \x27hidden\x27)) \x7b\n"
  ++ "\t\t\t\t\t\t\treturn \x27\x27;\n"
  ++ "\t\t\t\t\t\t\x7d\n"
  ++ "\t\t\t\t\t\t\n"
  ++ "\t\t\t\t\t\tlet text = \x27\x27;\n"
  ++ "\t\t\t\t\t\tfor (const child of node.childNodes) \x7b\n"
  ++ "\t\t\t\t\t\t\ttext += getVisibleText(child);\n"
  ++ "\t\t\t\t\t\t\x7d\n"
  ++ "\t\t\t\t\t\treturn "
  ++ fmtBool trim
  ++ " ? text.trim() : text;\n"
  ++ "\t\t\t\t\t\x7d;\n"
  ++ "\t\t\t\t\t\n"
  ++ "\t\t\t\t\treturn getVisibleText(document.body);\n"
  ++ "\t\t\t\t\x7d"

/-- The per-element script of `GetTextHandler`: `fmt.Sprintf` of the template with `selector`, `selector`, `includeHidden`, `trim`. -/
def elementTextScript (selector : String) (includeHidden trim : Bool) : String :=
  "() => \x7b\n"
  ++ "\t\t\t\t\tconst elements = document.querySelectorAll(\""
  ++ selector
  ++ "\");\n"
  ++ "\t\t\t\t\tif (elements.length === 0) \x7b\n"
  ++ "\t\t\t\t\t\treturn \"No elements found matching selector: "
  ++ selector
  ++ "\";\n"
  ++ "\t\t\t\t\t\x7d\n"
  ++ "\t\t\t\t\t\n"
  ++ "\t\t\t\t\treturn Array.from(elements).map(el => \x7b\n"
  ++ "\t\t\t\t\t\tif (!"
  ++ fmtBool includeHidden
  ++ " && (window.getComputedStyle(el).display === \x27none\x27 || \n"
  ++ "\t\t\t\t\t\t\twindow.getComputedStyle(el).visibility === \x27hidden\x27)) \x7b\n"
  ++ "\t\t\t\t\t\t\treturn \"[Hidden element]\";\n"
  ++ "\t\t\t\t\t\t\x7d\n"
  ++ "\t\t\t\t\t\t\n"
  ++ "\t\t\t\t\t\tconst text = el.textContent || \"\";\n"
  ++ "\t\t\t\t\t\treturn "
  ++ fmtBool trim
  ++ " ? text.trim() : text;\n"
  ++ "\t\t\t\t\t\x7d).join(\"\\n\\n\");\n"
  ++ "\t\t\t\t\x7d"

/-! ## Handlers -/

/-- The handler `NavigationHandler`. -/
def NavigationHandler (args : Args) : M String := do
  let url ← assertString (args.lookup "url")
  if !IsHttp url then
    errorsNew "invalid URL"
  else
    let page ← EnsurePage
    check page.2 (fun e => "Failed to navigate to " ++ url ++ ": " ++ e)
    let err ← call (.navigate url)
    check err (fun e => "Failed to navigate to " ++ url ++ ": " ++ e)
    let _ ← call (.waitDOMStable defaultWaitStableDur defaultDomDiff)
    pure ("Navigated to " ++ url)

/-- The handler `GoBackHandler`. -/
def GoBackHandler (_args : Args) : M String := do
  let page ← EnsurePage
  check page.2 (fun e => "Failed to go back: " ++ e)
  let err ← call .navigateBack
  check err (fun e => "Failed to go back: " ++ e)
  let _ ← call (.waitDOMStable defaultWaitStableDur defaultDomDiff)
  pure "Go back successfully"

/-- The handler `GoForwardHandler`. -/
def GoForwardHandler (_args : Args) : M String := do
  let page ← EnsurePage
  check page.2 (fun e => "Failed to go forward: " ++ e)
  let err ← call .navigateForward
  check err (fun e => "Failed to go forward: " ++ e)
  let _ ← call (.waitDOMStable defaultWaitStableDur defaultDomDiff)
  pure "Go forward successfully"

/-- The handler `ReLoadHandler`. -/
def ReLoadHandler (_args : Args) : M String := do
  let page ← EnsurePage
  check page.2 (fun e => "Failed to reload current page: " ++ e)
  let err ← call .reload
  check err (fun e => "Failed to reload current page: " ++ e)
  let _ ← call (.waitDOMStable defaultWaitStableDur defaultDomDiff)
  pure "Reload current page successfully"

/-- The input call of `PressKeyHandler` for `keyStr`: the `len(keyStr) == 1` test
(a length in bytes) and the `switch` on the key name. -/
def pressKeyCall (keyStr : String) : Call :=
  if keyStr.utf8ByteSize = 1 then .insertText keyStr
  else if keyStr = "Enter" then .keyboardPress .Enter
  else if keyStr = "Tab" then .keyboardPress .Tab
  else if keyStr = "Backspace" then .keyboardPress .Backspace
  else if keyStr = "Escape" then .keyboardPress .Escape
  else if keyStr = "ArrowUp" then .keyboardPress .ArrowUp
  else if keyStr = "ArrowDown" then .keyboardPress .ArrowDown
  else if keyStr = "ArrowLeft" then .keyboardPress .ArrowLeft
  else if keyStr = "ArrowRight" then .keyboardPress .ArrowRight
  else .insertText keyStr

/-- The handler `PressKeyHandler`. -/
def PressKeyHandler (args : Args) : M String := do
  let page ← EnsurePage
  check page.2 (fun e => "Failed to press key: " ++ e)
  let keyStr ← assertString (args.lookup "key")
  let err ← call (pressKeyCall keyStr)
  check err (fun e => "Failed to press key " ++ keyStr ++ ": " ++ e)
  pure ("Press key " ++ keyStr ++ " successfully")

/-- The handler `ClickHandler`. -/
def ClickHandler (args : Args) : M String := do
  let page ← EnsurePage
  check page.2 (fun e => "Failed to click element: " ++ e)
  let selector ← assertString (args.lookup "selector")
  let err ← call (.element selector)
  check err (fun e => "Failed to find element " ++ selector ++ ": " ++ e)
  let err ← call (.elementClick selector .left 1)
  check err (fun e => "Failed to click element " ++ selector ++ ": " ++ e)
  pure ("Click element " ++ selector ++ " successfully")

/-- The handler `FillHandler`. -/
def FillHandler (args : Args) : M String := do
  let page ← EnsurePage
  check page.2 (fun e => "Failed to fill out element: " ++ e)
  let selector ← assertString (args.lookup "selector")
  let value ← assertString (args.lookup "value")
  let err ← call (.element selector)
  check err (fun e => "Failed to find element " ++ selector ++ ": " ++ e)
  let err ← call (.elementInput selector value)
  check err (fun e => "Failed to fill out element " ++ selector ++ ": " ++ e)
  pure ("Fill out element " ++ selector ++ " successfully")

/-- The box (`Box()`) of the shape the element just reported. -/
def shapeBox (selector : String) : M Box := fun env st =>
  (.ok (env.box st.trace selector), st)

/-- The handler `DragHandler`. -/
def DragHandler (args : Args) : M String := do
  let page ← EnsurePage
  check page.2 (fun e => "Failed to perform drag and drop: " ++ e)
  let sourceSelector ← assertString (args.lookup "source_selector")
  let targetSelector ← assertString (args.lookup "target_selector")
  let err ← call (.element sourceSelector)
  check err (fun e => "Failed to find source element " ++ sourceSelector ++ ": " ++ e)
  let err ← call (.element targetSelector)
  check err (fun e => "Failed to find target element " ++ targetSelector ++ ": " ++ e)
  let err ← call (.elementShape sourceSelector)
  check err (fun e =>
    "Failed to get shape of source element " ++ sourceSelector ++ ": " ++ e)
  let sourceBox ← shapeBox sourceSelector
  let err ← call (.elementShape targetSelector)
  check err (fun e =>
    "Failed to get shape of target element " ++ targetSelector ++ ": " ++ e)
  let targetBox ← shapeBox targetSelector
  let env ← getEnv
  let sourceX := fadd env sourceBox.x (fdiv env sourceBox.width 2)
  let sourceY := fadd env sourceBox.y (fdiv env sourceBox.height 2)
  let targetX := fadd env targetBox.x (fdiv env targetBox.width 2)
  let targetY := fadd env targetBox.y (fdiv env targetBox.height 2)
  let err ← call (.mouseMoveTo sourceX sourceY)
  check err (fun e => "Failed to move mouse to source element: " ++ e)
  let err ← call (.mouseDown .left 1)
  check err (fun e => "Failed to press mouse button: " ++ e)
  let err ← call (.mouseMoveTo targetX targetY)
  check err (fun e => "Failed to move mouse to target element: " ++ e)
  let err ← call (.mouseUp .left 1)
  check err (fun e => "Failed to release mouse button: " ++ e)
  pure ("Drag and drop from " ++ sourceSelector ++ " to " ++ targetSelector
    ++ " successfully")

/-- The handler `SelectorHandler`. -/
def SelectorHandler (args : Args) : M String := do
  let page ← EnsurePage
  check page.2 (fun e => "Failed to select option: " ++ e)
  let selector ← assertString (args.lookup "selector")
  let value ← assertString (args.lookup "value")
  let err ← call (.element selector)
  check err (fun e => "Failed to find select element " ++ selector ++ ": " ++ e)
  let script := selectorScript value
  let err ← call (.elementEval selector script)
  check err (fun e =>
    "Failed to select option " ++ value ++ " in element " ++ selector ++ ": " ++ e)
  pure ("Selected option " ++ value ++ " in element " ++ selector ++ " successfully")

/-- The handler `WaitHandler`. -/
def WaitHandler (args : Args) : M String := do
  let waitTime ← assertFloat (args.lookup "time")
  let waitTime := if waitTime > 10 then 10 else waitTime
  let env ← getEnv
  sleep (wrap64 (toInt64 env waitTime * second))
  pure ("Waited for " ++ fmtF1 waitTime ++ " seconds")

/-- The handler `ScreenshotHandler`. -/
def ScreenshotHandler (args : Args) : M String := do
  let page ← EnsurePage
  check page.2 (fun e => "Failed to take screenshot: " ++ e)
  let name ← assertString (args.lookup "name")
  let selector := commaOkString (args.lookup "selector")
  if selector.2 && selector.1 != "" then
    let err ← call (.element selector.1)
    check err (fun e => "Failed to find element " ++ selector.1 ++ ": " ++ e)
    let err ← call (.elementScreenshot selector.1 .png 100)
    check err (fun e =>
      "Failed to take screenshot of element " ++ selector.1 ++ ": " ++ e)
    pure ("Screenshot " ++ name ++ " taken successfully")
  else
    let env ← getEnv
    let w := commaOkFloat (args.lookup "width")
    let width := if w.2 then toInt64 env w.1 else 800
    let h := commaOkFloat (args.lookup "height")
    let height := if h.2 then toInt64 env h.1 else 600
    let err ← call (.setViewport width height)
    check err (fun e => "Failed to set viewport: " ++ e)
    let err ← call (.pageScreenshot false)
    check err (fun e => "Failed to take screenshot: " ++ e)
    pure ("Screenshot " ++ name ++ " taken successfully")

/-- The handler `PdfHandler`. -/
def PdfHandler (args : Args) : M String := do
  let page ← EnsurePage
  check page.2 (fun e => "Failed to generate PDF: " ++ e)
  let filePath ← assertString (args.lookup "file_path")
  let fileName ← assertString (args.lookup "file_name")
  let err ← call (.pagePDF true)
  check err (fun e => "Failed to generate PDF: " ++ e)
  pure ("PDF saved to " ++ filePath ++ "/" ++ fileName)

/-- The handler `CloseBrowserHandler`. -/
def CloseBrowserHandler (_args : Args) : M String := do
  let browser ← GetBrowser
  if browser = none then
    errorsNew "browser not launched"
  else
    let err ← call .browserClose
    check err (fun e => "Failed to close browser: " ++ e)
    pure "Browser closed successfully"

/-- The `%v` rendering of the value the script `js`, just evaluated, produced. -/
def evalValue (js : String) : M String := fun env st =>
  (.ok (env.value st.trace js), st)

/-- The handler `SnapshotHandler`. -/
def SnapshotHandler (_args : Args) : M String := do
  let page ← EnsurePage
  check page.2 (fun e => "Failed to capture accessibility snapshot: " ++ e)
  let err ← call (.pageEval snapshotScript)
  check err (fun e => "Failed to capture accessibility snapshot: " ++ e)
  let snapshotVal ← evalValue snapshotScript
  pure ("Snapshot captured successfully: " ++ snapshotVal)

/-- The handler `EvaluateHandler`. -/
def EvaluateHandler (args : Args) : M String := do
  let page ← EnsurePage
  check page.2 (fun e => "Failed to evaluate script: " ++ e)
  let script ← assertString (args.lookup "script")
  let err ← call (.pageEval script)
  check err (fun e => "Failed to evaluate script: " ++ e)
  let result ← evalValue script
  pure ("Script evaluated successfully, result: " ++ result)

/-- The handler `SelectElementHandler`. -/
def SelectElementHandler (args : Args) : M String := do
  let page ← EnsurePage
  check page.2 (fun e => "Failed to access page: " ++ e)
  let selector ← assertString (args.lookup "selector")
  let attr := commaOkBool (args.lookup "get_attributes")
  let getAttributes := if attr.2 then attr.1 else false
  let txt := commaOkBool (args.lookup "get_text")
  let getText := if txt.2 then txt.1 else true
  let script := selectElementScript selector getText getAttributes
  let err ← call (.pageEval script)
  check err (fun e =>
    "Failed to select elements with selector " ++ selector ++ ": " ++ e)
  let result ← evalValue script
  let resultText := "Found elements matching selector \x27" ++ selector ++ "\x27:\n"
  let resultText := resultText ++ result
  pure resultText

/-- The handler `GetTextHandler`. -/
def GetTextHandler (args : Args) : M String := do
  let page ← EnsurePage
  check page.2 (fun e => "Failed to access page: " ++ e)
  let sel := commaOkString (args.lookup "selector")
  let selector := if sel.2 then sel.1 else ""
  let t := commaOkBool (args.lookup "trim")
  let trim := if t.2 then t.1 else true
  let ih := commaOkBool (args.lookup "include_hidden")
  let includeHidden := if ih.2 then ih.1 else false
  let script := if selector = "" then pageTextScript includeHidden trim
    else elementTextScript selector includeHidden trim
  let err ← call (.pageEval script)
  check err (fun e => "Failed to get text: " ++ e)
  let textContent ← evalValue script
  if selector = "" then
    pure ("Text content of the page:\n" ++ textContent)
  else
    pure ("Text content of elements matching \x27" ++ selector ++ "\x27:\n"
      ++ textContent)

/-! ## Tool declarations and the registry -/

/-- The semantic type of a declared parameter (`WithString`, `WithNumber`,
`WithBoolean`). -/
inductive ParamType where
  | string | number | bool
  deriving DecidableEq

/-- A declared parameter of a tool. -/
structure Param where
  name : String
  type : ParamType
  description : String
  required : Bool
  deriving DecidableEq

/-- A tool declaration (`mcp.NewTool`). -/
structure Tool where
  name : String
  description : String
  params : List Param
  deriving DecidableEq

/-- The tool `Navigation`. -/
def Navigation : Tool :=
  ⟨"rod_navigate", "Navigate to a URL",
    [⟨"url", .string, "URL to navigate to", true⟩]⟩

/-- The tool `GoBack`. -/
def GoBack : Tool :=
  ⟨"rod_go_back", "Go back in the browser history, go back to the previous page", []⟩

/-- The tool `GoForward`. -/
def GoForward : Tool :=
  ⟨"rod_go_forward", "Go forward in the browser history, go to the next page", []⟩

/-- The tool `ReLoad`. -/
def ReLoad : Tool := ⟨"rod_reload", "Reload the current page", []⟩

/-- The tool `PressKey`. -/
def PressKey : Tool :=
  ⟨"rod_press_key", "Press a key on the keyboard",
    [⟨"key", .string,
      "Name of the key to press or a character to generate, such as `ArrowLeft` or `a`",
      true⟩]⟩

/-- The tool `Pdf`. -/
def Pdf : Tool :=
  ⟨"rod_pdf", "Generate a PDF from the current page",
    [⟨"file_path", .string, "Path to save the PDF file", true⟩,
     ⟨"file_name", .string, "Name of the PDF file", true⟩]⟩

/-- The tool `CloseBrowser`. -/
def CloseBrowser : Tool := ⟨"rod_close", "Close the browser", []⟩

/-- The tool `Screenshot`. -/
def Screenshot : Tool :=
  ⟨"rod_screenshot", "Take a screenshot of the current page or a specific element",
    [⟨"name", .string, "Name of the screenshot", true⟩,
     ⟨"selector", .string, "CSS selector of the element to take a screenshot of", false⟩,
     ⟨"width", .number, "Width in pixels (default: 800)", false⟩,
     ⟨"height", .number, "Height in pixels (default: 600)", false⟩]⟩

/-- The tool `Click`. -/
def Click : Tool :=
  ⟨"rod_click", "Click an element on the page",
    [⟨"selector", .string, "CSS selector of the element to click", true⟩]⟩

/-- The tool `Fill`. -/
def Fill : Tool :=
  ⟨"rod_fill", "Fill out an input field",
    [⟨"selector", .string, "CSS selector of the element to type into", true⟩,
     ⟨"value", .string, "Value to fill", true⟩]⟩

/-- The tool `Selector`. -/
def Selector : Tool :=
  ⟨"rod_selector", "Select an element on the page with Select tag",
    [⟨"selector", .string, "CSS selector for element to select", true⟩,
     ⟨"value", .string, "Value to select", true⟩]⟩

/-- The tool `Evaluate`. -/
def Evaluate : Tool :=
  ⟨"rod_evaluate", "Execute JavaScript in the browser console",
    [⟨"script", .string, "JavaScript code to execute", true⟩]⟩

/-- The tool `Drag`. -/
def Drag : Tool :=
  ⟨"rod_drag", "Perform drag and drop between two elements",
    [⟨"source_selector", .string, "CSS selector of the source element", true⟩,
     ⟨"target_selector", .string, "CSS selector of the target element", true⟩]⟩

/-- The tool `Wait`. -/
def Wait : Tool :=
  ⟨"rod_wait", "Wait for a specified time in seconds",
    [⟨"time", .number, "The time to wait in seconds (capped at 10 seconds)", true⟩]⟩

/-- The tool `Snapshot`. -/
def Snapshot : Tool :=
  ⟨"rod_snapshot", "Capture accessibility snapshot of the current page", []⟩

/-- The tool `SelectElement`. -/
def SelectElement : Tool :=
  ⟨"rod_select_element", "Select and retrieve information about elements on the page",
    [⟨"selector", .string, "CSS selector of the elements to retrieve", true⟩,
     ⟨"get_attributes", .bool,
      "Whether to include element attributes in the result (default: false)", false⟩,
     ⟨"get_text", .bool,
      "Whether to include element text content in the result (default: true)", false⟩]⟩

/-- The tool `GetText`. -/
def GetText : Tool :=
  ⟨"rod_get_text", "Get text content from the page or a specific element",
    [⟨"selector", .string,
      "CSS selector of the element to get text from (if empty, gets text from entire page)",
      false⟩,
     ⟨"trim", .bool, "Whether to trim whitespace from the text (default: true)", false⟩,
     ⟨"include_hidden", .bool, "Whether to include hidden text (default: false)", false⟩]⟩

/-- The type `ToolHandler`, with the session passed through the state. -/
abbrev ToolHandler := Args → M String

/-- The list `CommonTools`. -/
def CommonTools : List Tool :=
  [Navigation, GoBack, GoForward, ReLoad, PressKey, Click, Fill, Selector, Drag,
   Screenshot, Pdf, Wait, Snapshot, CloseBrowser, Evaluate, SelectElement, GetText]

/-- The map `CommonToolHandlers`: the map from tool name to handler, as its list of entries. -/
def CommonToolHandlers : List (String × ToolHandler) :=
  [("rod_navigate", NavigationHandler),
   ("rod_go_back", GoBackHandler),
   ("rod_go_forward", GoForwardHandler),
   ("rod_reload", ReLoadHandler),
   ("rod_press_key", PressKeyHandler),
   ("rod_click", ClickHandler),
   ("rod_fill", FillHandler),
   ("rod_selector", SelectorHandler),
   ("rod_drag", DragHandler),
   ("rod_screenshot", ScreenshotHandler),
   ("rod_pdf", PdfHandler),
   ("rod_wait", WaitHandler),
   ("rod_snapshot", SnapshotHandler),
   ("rod_close", CloseBrowserHandler),
   ("rod_evaluate", EvaluateHandler),
   ("rod_select_element", SelectElementHandler),
   ("rod_get_text", GetTextHandler)]

/-! ## Observations on a run -/

/-- The pair `(page, err)` that `EnsurePage` returns in a state. -/
def ensurePageResult (env : Env) (st : State) : Option Nat × Option String :=
  match (EnsurePage env st).1 with
  | .ok r => r
  | _ => (none, none)

/-- The error `EnsurePage` returns in a state (`none`: it returns a page). -/
def ensurePageError (env : Env) (st : State) : Option String :=
  (ensurePageResult env st).2

/-- The calls a computation issues when run in a state. -/
def issued {α : Type} (m : M α) (env : Env) (st : State) : List Call :=
  (m env st).2.trace.drop st.trace.length

/-- The durations a computation passes to `time.Sleep` when run in a state. -/
def slept {α : Type} (m : M α) (env : Env) (st : State) : List Int :=
  (m env st).2.sleeps.drop st.sleeps.length

/-- The shape of a run of a navigation-class handler `h` whose navigation action is
`action`: `EnsurePage`, the action, then `WaitDOMStable` with a window of one second
(in nanoseconds) and threshold 0.2; a failure of either of the first two ends the run
with an error before `WaitDOMStable`. -/
def NavigationRun (h : M String) (action : Call) (env : Env) (st : State) : Prop :=
  (∀ e, ensurePageError env st = some e →
    issued h env st = [.ensurePage] ∧ ∃ msg, (h env st).1 = .err msg) ∧
  (ensurePageError env st = none →
    (∀ e, env.fail (st.trace ++ [.ensurePage]) action = some e →
      issued h env st = [.ensurePage, action] ∧ ∃ msg, (h env st).1 = .err msg) ∧
    (env.fail (st.trace ++ [.ensurePage]) action = none →
      issued h env st = [.ensurePage, action, .waitDOMStable 1000000000 0.2] ∧
        ∃ text, (h env st).1 = .ok text))

/-- The pointer operations among the calls: mouse moves, presses and releases. -/
def isPointerOp : Call → Bool
  | .mouseMoveTo _ _ => true
  | .mouseDown _ _ => true
  | .mouseUp _ _ => true
  | _ => false

/-- A run that ends right after `EnsurePage`: that is its only call; when
`EnsurePage` returned a page the run ends in a panic, and when it returned an error
the run returns an error that ends with it. -/
def StopsAfterEnsurePage (h : M String) (env : Env) (st : State) : Prop :=
  issued h env st = [.ensurePage] ∧
  (ensurePageError env st = none → (h env st).1 = .panic) ∧
  (∀ e, ensurePageError env st = some e → ∃ pre, (h env st).1 = .err (pre ++ e))

/-- The text `part` occurs in the text `msg`. -/
def Mentions (msg part : String) : Prop := part.data <:+: msg.data

instance (msg part : String) : Decidable (Mentions msg part) :=
  inferInstanceAs (Decidable (part.data <:+: msg.data))

/-- The target a call carries: the url of a navigation, the text of an insertion,
the selector of an element lookup or of an operation on an element. -/
def Call.target : Call → Option String
  | .navigate url => some url
  | .insertText text => some text
  | .element selector => some selector
  | .elementClick selector _ _ => some selector
  | .elementInput selector _ => some selector
  | .elementShape selector => some selector
  | .elementEval selector _ => some selector
  | .elementScreenshot selector _ _ => some selector
  | _ => none

/-- The error the call `c` reported to the handler when made after the calls `hist`,
in a run that started in the state `st`.  `GetBrowser` has no error result. -/
def callError (env : Env) (st : State) (hist : List Call) (c : Call) : Option String :=
  match c with
  | .ensurePage => ensurePageError env { st with trace := hist }
  | .getBrowser => none
  | c => env.fail hist c

/-- The call is a `WaitDOMStable`, the one call whose result the handlers discard. -/
def Call.isWait : Call → Bool
  | .waitDOMStable _ _ => true
  | _ => false

/-- Each of the calls, made one after the other after the calls `hist`, either
succeeded or is a `WaitDOMStable`. -/
def AllSucceed (env : Env) (st : State) : List Call → List Call → Prop
  | _, [] => True
  | hist, c :: cs =>
    (c.isWait = true ∨ callError env st hist c = none) ∧
      AllSucceed env st (hist ++ [c]) cs

/-- The descriptions of a failed step that name no argument. -/
def fixedDescriptions : List String :=
  ["Failed to go back: ", "Failed to go forward: ", "Failed to reload current page: ",
   "Failed to press key: ", "Failed to click element: ", "Failed to fill out element: ",
   "Failed to perform drag and drop: ", "Failed to move mouse to source element: ",
   "Failed to press mouse button: ", "Failed to move mouse to target element: ",
   "Failed to release mouse button: ", "Failed to select option: ",
   "Failed to take screenshot: ", "Failed to set viewport: ",
   "Failed to generate PDF: ", "Failed to close browser: ",
   "Failed to capture accessibility snapshot: ", "Failed to evaluate script: ",
   "Failed to access page: ", "Failed to get text: "]

/-- What the description `pre` that the command `name`, invoked with `args`, puts
before the cause of its failed call `c` must be.  It is not empty.  It names the
target the call carries, if any; it names the url when the `EnsurePage` of navigate
failed, the key when the `Keyboard.Press` of press_key failed, the selector when the
script evaluation of select_element failed, and the value as well when the script of
the select command failed.  In every other case it is one of the fixed
descriptions. -/
def DescribesFailure (name : String) (args : Args) (c : Call) (pre : String) : Prop :=
  pre ≠ "" ∧
  (∀ target, c.target = some target → Mentions pre target) ∧
  (name = "rod_navigate" → c = .ensurePage →
    ∀ url, args.lookup "url" = some (.str url) → Mentions pre url) ∧
  (name = "rod_press_key" → (∃ key, c = .keyboardPress key) →
    ∀ k, args.lookup "key" = some (.str k) → Mentions pre k) ∧
  (name = "rod_select_element" → (∃ js, c = .pageEval js) →
    ∀ sel, args.lookup "selector" = some (.str sel) → Mentions pre sel) ∧
  (name = "rod_selector" → (∃ sel js, c = .elementEval sel js) →
    ∀ v, args.lookup "value" = some (.str v) → Mentions pre v) ∧
  (c.target = none →
    ¬ (name = "rod_navigate" ∧ c = .ensurePage) →
    ¬ (name = "rod_press_key" ∧ ∃ key, c = .keyboardPress key) →
    ¬ (name = "rod_select_element" ∧ ∃ js, c = .pageEval js) →
    pre ∈ fixedDescriptions)

/-- The calls `done` are those made so far, in the state `st`, by a run that started
in `st0`, and all of them succeeded or are `WaitDOMStable`. -/
def Ready (env : Env) (st0 st : State) (done : List Call) : Prop :=
  st.trace = st0.trace ++ done ∧ AllSucceed env st0 st0.trace done

/-- How the result `r` of a run of the command `name` that started in `st0` reports
failures.  A run that ends without error made only calls that succeeded.  A run that
ends in an error either made no call and says "invalid URL", or made only the call
`GetBrowser`, found no browser and says "browser not launched", or ends with a failed
call, after calls that succeeded, and its text is a description of that failure
followed by the cause. -/
def Reports (name : String) (args : Args) (env : Env) (st0 : State)
    (r : Outcome String × State) : Prop :=
  ∃ calls, r.2.trace = st0.trace ++ calls ∧
    match r.1 with
    | .ok _ => AllSucceed env st0 st0.trace calls
    | .panic => AllSucceed env st0 st0.trace calls
    | .err msg =>
      (msg = "invalid URL" ∧ calls = []) ∨
      (msg = "browser not launched" ∧ calls = [.getBrowser] ∧
        st0.session.browser = none) ∨
      ∃ hist c cause pre, calls = hist ++ [c] ∧ AllSucceed env st0 st0.trace hist ∧
        c.isWait = false ∧ callError env st0 (st0.trace ++ hist) c = some cause ∧
        msg = pre ++ cause ∧ DescribesFailure name args c pre

/-! ## Sample environments and states -/

/-- An environment in which every call succeeds. -/
def okEnv : Env :=
  { fail := fun _ _ => none
    box := fun _ _ => ⟨0, 0, 0, 0⟩
    value := fun _ _ => ""
    handle := fun hist => hist.length
    round64 := fun x => x
    convOOR := fun _ => -9223372036854775808 }

/-- The session at process start: no browser, no page, nothing logged. -/
def freshState : State := ⟨⟨none, none⟩, [], []⟩

/-- A state whose session holds browser `0` and page `1`. -/
def launchedState : State := ⟨⟨some 0, some 1⟩, [], []⟩

/-- An environment in which pressing the mouse button fails and every other call
succeeds; the element `#a` has the box `(10, 20, 100, 50)` and every other element
the box `(200, 300, 40, 60)`; arithmetic is exact. -/
def pressFailsEnv : Env :=
  { fail := fun _ c =>
      match c with
      | .mouseDown _ _ => some "button stuck"
      | _ => none
    box := fun _ sel => if sel = "#a" then ⟨10, 20, 100, 50⟩ else ⟨200, 300, 40, 60⟩
    value := fun _ _ => ""
    handle := fun hist => hist.length
    round64 := fun x => x
    convOOR := fun _ => -9223372036854775808 }

/-- The arguments of a drag from `#a` to `#b`. -/
def dragArgs : Args := [("source_selector", .str "#a"), ("target_selector", .str "#b")]

/-- An environment in which moving the mouse fails with "timeout" and every other
call succeeds. -/
def moveFailsEnv : Env :=
  { fail := fun _ c =>
      match c with
      | .mouseMoveTo _ _ => some "timeout"
      | _ => none
    box := fun _ _ => ⟨0, 0, 0, 0⟩
    value := fun _ _ => ""
    handle := fun hist => hist.length
    round64 := fun x => x
    convOOR := fun _ => -9223372036854775808 }

/-- An environment in which every element lookup fails with "not found" and every
other call succeeds. -/
def lookupFailsEnv : Env :=
  { fail := fun _ c =>
      match c with
      | .element _ => some "not found"
      | _ => none
    box := fun _ _ => ⟨0, 0, 0, 0⟩
    value := fun _ _ => ""
    handle := fun hist => hist.length
    round64 := fun x => x
    convOOR := fun _ => -9223372036854775808 }

/-- The number 800.7. -/
def width800_7 : ℚ := ⟨8007, 10, by decide, by decide⟩

/-- The number -600.5. -/
def minus600_5 : ℚ := ⟨-1201, 2, by decide, by decide⟩

/-- The number 0.5. -/
def half : ℚ := ⟨1, 2, by decide, by decide⟩

/-! ## Running a computation step by step -/

theorem bind_apply {α β : Type} (m : M α) (f : α → M β) (env : Env) (st : State) :
    (m >>= f) env st =
      match m env st with
      | (.ok a, st1) => f a env st1
      | (.err e, st1) => (.err e, st1)
      | (.panic, st1) => (.panic, st1) := rfl

@[simp]
theorem pure_apply {α : Type} (a : α) (env : Env) (st : State) :
    (pure a : M α) env st = (.ok a, st) := rfl

@[simp]
theorem errorsNew_apply {α : Type} (msg : String) (env : Env) (st : State) :
    (errorsNew msg : M α) env st = (.err msg, st) := rfl

@[simp]
theorem goPanic_bind {α β : Type} (f : α → M β) (env : Env) (st : State) :
    ((goPanic : M α) >>= f) env st = (.panic, st) := rfl

@[simp]
theorem call_bind {β : Type} (c : Call) (f : Option String → M β) (env : Env)
    (st : State) :
    (call c >>= f) env st =
      f (env.fail st.trace c) env { st with trace := st.trace ++ [c] } := rfl

@[simp]
theorem check_none_bind {β : Type} (msg : String → String) (f : Unit → M β)
    (env : Env) (st : State) :
    (check none msg >>= f) env st = f () env st := rfl

@[simp]
theorem check_some_bind {β : Type} (e : String) (msg : String → String)
    (f : Unit → M β) (env : Env) (st : State) :
    (check (some e) msg >>= f) env st = (.err (msg e), st) := rfl

@[simp]
theorem assertString_str_bind {β : Type} (s : String) (f : String → M β)
    (env : Env) (st : State) :
    (assertString (some (.str s)) >>= f) env st = f s env st := rfl

@[simp]
theorem assertString_none_bind {β : Type} (f : String → M β)
    (env : Env) (st : State) :
    (assertString none >>= f) env st = (.panic, st) := rfl

@[simp]
theorem assertFloat_num_bind {β : Type} (x : ℚ) (f : ℚ → M β)
    (env : Env) (st : State) :
    (assertFloat (some (.num x)) >>= f) env st = f x env st := rfl

@[simp]
theorem assertFloat_none_bind {β : Type} (f : ℚ → M β)
    (env : Env) (st : State) :
    (assertFloat none >>= f) env st = (.panic, st) := rfl

@[simp]
theorem getEnv_bind {β : Type} (f : Env → M β) (env : Env) (st : State) :
    (getEnv >>= f) env st = f env env st := rfl

@[simp]
theorem sleep_bind {β : Type} (d : Int) (f : Unit → M β) (env : Env) (st : State) :
    (sleep d >>= f) env st = f () env { st with sleeps := st.sleeps ++ [d] } := rfl

@[simp]
theorem shapeBox_bind {β : Type} (sel : String) (f : Box → M β) (env : Env)
    (st : State) :
    (shapeBox sel >>= f) env st = f (env.box st.trace sel) env st := rfl

@[simp]
theorem evalValue_bind {β : Type} (js : String) (f : String → M β) (env : Env)
    (st : State) :
    (evalValue js >>= f) env st = f (env.value st.trace js) env st := rfl

@[simp]
theorem GetBrowser_bind {β : Type} (f : Option Nat → M β) (env : Env) (st : State) :
    (GetBrowser >>= f) env st =
      f st.session.browser env { st with trace := st.trace ++ [.getBrowser] } := rfl

theorem EnsurePage_fst (env : Env) (st : State) :
    (EnsurePage env st).1 = .ok (ensurePageResult env st) := by
  simp only [ensurePageResult, EnsurePage]
  cases st.session.page with
  | some p => rfl
  | none =>
    cases env.fail st.trace Call.ensurePage with
    | some e => rfl
    | none => rfl

@[simp]
theorem EnsurePage_trace (env : Env) (st : State) :
    (EnsurePage env st).2.trace = st.trace ++ [.ensurePage] := by
  simp only [EnsurePage]
  cases st.session.page with
  | some p => rfl
  | none =>
    cases env.fail st.trace Call.ensurePage with
    | some e => rfl
    | none => rfl

@[simp]
theorem EnsurePage_sleeps (env : Env) (st : State) :
    (EnsurePage env st).2.sleeps = st.sleeps := by
  simp only [EnsurePage]
  cases st.session.page with
  | some p => rfl
  | none =>
    cases env.fail st.trace Call.ensurePage with
    | some e => rfl
    | none => rfl

@[simp]
theorem EnsurePage_bind {β : Type} (f : Option Nat × Option String → M β)
    (env : Env) (st : State) :
    (EnsurePage >>= f) env st = f (ensurePageResult env st) env (EnsurePage env st).2 := by
  have h := EnsurePage_fst env st
  rw [bind_apply]
  revert h
  generalize EnsurePage env st = r
  rcases r with ⟨o, st1⟩
  intro h
  simp only at h
  subst h
  rfl

theorem drop_length_append {α : Type} (l r : List α) : (l ++ r).drop l.length = r := by
  simp

theorem isHttp_iff (url : String) :
    IsHttp url = true ↔ "http://".data <+: url.data ∨ "https://".data <+: url.data := by
  simp [IsHttp, List.isPrefixOf_iff_prefix]

theorem navigationRun_of {h : M String} {action : Call} {env : Env} {st : State}
    {wrap : String → String} {text : String}
    (hrun : h env st =
      (do
        let page ← EnsurePage
        check page.2 wrap
        let err ← call action
        check err wrap
        let _ ← call (.waitDOMStable defaultWaitStableDur defaultDomDiff)
        pure text : M String) env st) :
    NavigationRun h action env st := by
  have hdiff : defaultDomDiff = 0.2 := by
    have h5 : defaultDomDiff = Rat.divInt 1 5 := by
      unfold defaultDomDiff
      exact Rat.mk'_eq_divInt ..
    rw [h5, Rat.divInt_eq_div]
    norm_num
  have hdur : defaultWaitStableDur = 1000000000 := by decide
  simp only [NavigationRun, issued, hrun, EnsurePage_bind, call_bind, EnsurePage_trace,
    hdiff, hdur, ensurePageError]
  refine ⟨?_, ?_⟩
  · intro e he
    simp [he]
  · intro he
    refine ⟨?_, ?_⟩
    · intro e hact
      simp [he, hact]
    · intro hact
      simp [he, hact]

/-! ## Navigation -/

/-- C2. A url that starts with neither `http://` nor `https://` makes the navigate
handler return the error "invalid URL" and leaves the state as it was: no
`EnsurePage`, no `Navigate`, no `WaitDOMStable`. -/
theorem navigate_rejects_non_http (args : Args) (env : Env) (st : State) (url : String)
    (hurl : args.lookup "url" = some (.str url))
    (h1 : ¬ "http://".data <+: url.data) (h2 : ¬ "https://".data <+: url.data) :
    NavigationHandler args env st = (.err "invalid URL", st) := by
  have h : IsHttp url = false := by
    cases hb : IsHttp url with
    | false => rfl
    | true => exact absurd ((isHttp_iff url).1 hb) (by simp [h1, h2])
  simp [NavigationHandler, hurl, h]

/-- Witness of C2 at the url `not-a-url`. -/
theorem navigate_rejects_non_http_witness :
    NavigationHandler [("url", .str "not-a-url")] okEnv freshState
      = (.err "invalid URL", freshState) :=
  navigate_rejects_non_http [("url", .str "not-a-url")] okEnv freshState "not-a-url"
    rfl (by decide) (by decide)

/-- C3. Each navigation-class handler (navigate with an http or https url, go back,
go forward, reload) issues `EnsurePage`, its navigation action and then
`WaitDOMStable` with a one-second window and threshold 0.2, in this order, when the
first two succeed; when `EnsurePage` or the action fails it returns an error and
`WaitDOMStable` is not called. -/
theorem navigation_class_call_sequence (env : Env) (st : State) :
    (∀ (args : Args) (url : String), args.lookup "url" = some (.str url) →
      ("http://".data <+: url.data ∨ "https://".data <+: url.data) →
      NavigationRun (NavigationHandler args) (.navigate url) env st) ∧
    (∀ args : Args, NavigationRun (GoBackHandler args) .navigateBack env st) ∧
    (∀ args : Args, NavigationRun (GoForwardHandler args) .navigateForward env st) ∧
    (∀ args : Args, NavigationRun (ReLoadHandler args) .reload env st) := by
  refine ⟨?_, ?_, ?_, ?_⟩
  · intro args url hurl hhttp
    have h : IsHttp url = true := (isHttp_iff url).2 hhttp
    apply navigationRun_of
    simp only [NavigationHandler, hurl, assertString_str_bind, h]
    rfl
  · intro args
    exact navigationRun_of rfl
  · intro args
    exact navigationRun_of rfl
  · intro args
    exact navigationRun_of rfl

/-- Witness of C3: navigating a fresh session to `https://example.com` with a driver
that never fails. -/
theorem navigation_class_call_sequence_witness :
    issued (NavigationHandler [("url", .str "https://example.com")]) okEnv freshState
      = [.ensurePage, .navigate "https://example.com",
          .waitDOMStable 1000000000 0.2] :=
  ((((navigation_class_call_sequence okEnv freshState).1
    [("url", .str "https://example.com")] "https://example.com" rfl
    (Or.inr (by decide))).2 (by decide)).2 (by decide)).1

/-! ## Close -/

/-- C7. When `GetBrowser` returns nil, the close handler returns exactly the error
"browser not launched"; the only call it makes is `GetBrowser`: no `Close` on a
browser and no `EnsurePage`, and the session is as it was. -/
theorem close_without_browser (args : Args) (env : Env) (st : State)
    (h : (GetBrowser env st).1 = .ok none) :
    CloseBrowserHandler args env st
        = (.err "browser not launched", { st with trace := st.trace ++ [.getBrowser] }) ∧
      issued (CloseBrowserHandler args) env st = [.getBrowser] := by
  have hb : st.session.browser = none := by
    simpa [GetBrowser] using h
  simp [CloseBrowserHandler, issued, hb]

/-- Witness of C7 on a fresh session. -/
theorem close_without_browser_witness :
    CloseBrowserHandler [] okEnv freshState
        = (.err "browser not launched",
            { freshState with trace := freshState.trace ++ [.getBrowser] }) ∧
      issued (CloseBrowserHandler []) okEnv freshState = [.getBrowser] :=
  close_without_browser [] okEnv freshState rfl

/-! ## Wait -/

theorem truncate_ten : truncate 10 = 10 := by decide

theorem WaitHandler_num (args : Args) (env : Env) (st : State) (t : ℚ)
    (ht : args.lookup "time" = some (.num t)) :
    WaitHandler args env st =
      (.ok ("Waited for " ++ fmtF1 (if t > 10 then 10 else t) ++ " seconds"),
        { st with sleeps := st.sleeps ++
            [wrap64 (toInt64 env (if t > 10 then 10 else t) * second)] }) := by
  simp [WaitHandler, ht]

theorem WaitHandler_state (args : Args) (env : Env) (st : State) :
    (WaitHandler args env st).2.trace = st.trace ∧
      (WaitHandler args env st).2.session = st.session := by
  cases ht : args.lookup "time" with
  | none => simp [WaitHandler, ht]
  | some v =>
    cases v with
    | num t => simp [WaitHandler_num args env st t ht]
    | null => simp [WaitHandler, ht, assertFloat, goPanic_bind]
    | bool b => simp [WaitHandler, ht, assertFloat, goPanic_bind]
    | str s => simp [WaitHandler, ht, assertFloat, goPanic_bind]
    | composite => simp [WaitHandler, ht, assertFloat, goPanic_bind]

/-- C8. A time argument above 10 makes the wait handler sleep once, for exactly ten
seconds; and whatever the arguments, the wait handler makes no session or driver call
and leaves the session as it was. -/
theorem wait_clamps_to_ten_seconds (args : Args) (env : Env) (st : State) :
    (∀ t : ℚ, args.lookup "time" = some (.num t) → t > 10 →
      slept (WaitHandler args) env st = [10 * 1000000000]) ∧
    issued (WaitHandler args) env st = [] ∧
    (WaitHandler args env st).2.session = st.session := by
  refine ⟨?_, ?_, (WaitHandler_state args env st).2⟩
  · intro t ht hgt
    have h10 : toInt64 env 10 = 10 := by
      simp [toInt64, truncate_ten]
    have hw : wrap64 (10 * second) = 10 * 1000000000 := by decide
    simp [slept, WaitHandler_num args env st t ht, hgt, h10, hw]
  · simp [issued, (WaitHandler_state args env st).1]

/-- Witness of C8 at `time = 15`. -/
theorem wait_clamps_to_ten_seconds_witness :
    slept (WaitHandler [("time", .num 15)]) okEnv freshState = [10 * 1000000000] :=
  (wait_clamps_to_ten_seconds [("time", .num 15)] okEnv freshState).1 15 rfl (by decide)

/-! ## Press key -/

theorem pressKeyCall_cases (k : String) :
    (k = "Enter" ∧ pressKeyCall k = .keyboardPress .Enter) ∨
    (k = "Tab" ∧ pressKeyCall k = .keyboardPress .Tab) ∨
    (k = "Backspace" ∧ pressKeyCall k = .keyboardPress .Backspace) ∨
    (k = "Escape" ∧ pressKeyCall k = .keyboardPress .Escape) ∨
    (k = "ArrowUp" ∧ pressKeyCall k = .keyboardPress .ArrowUp) ∨
    (k = "ArrowDown" ∧ pressKeyCall k = .keyboardPress .ArrowDown) ∨
    (k = "ArrowLeft" ∧ pressKeyCall k = .keyboardPress .ArrowLeft) ∨
    (k = "ArrowRight" ∧ pressKeyCall k = .keyboardPress .ArrowRight) ∨
    (k ∉ ["Enter", "Tab", "Backspace", "Escape", "ArrowUp", "ArrowDown", "ArrowLeft",
        "ArrowRight"] ∧ pressKeyCall k = .insertText k) := by
  by_cases h1 : k = "Enter"
  · subst h1; exact Or.inl ⟨rfl, by decide⟩
  by_cases h2 : k = "Tab"
  · subst h2; exact Or.inr (Or.inl ⟨rfl, by decide⟩)
  by_cases h3 : k = "Backspace"
  · subst h3; exact Or.inr (Or.inr (Or.inl ⟨rfl, by decide⟩))
  by_cases h4 : k = "Escape"
  · subst h4; exact Or.inr (Or.inr (Or.inr (Or.inl ⟨rfl, by decide⟩)))
  by_cases h5 : k = "ArrowUp"
  · subst h5; exact Or.inr (Or.inr (Or.inr (Or.inr (Or.inl ⟨rfl, by decide⟩))))
  by_cases h6 : k = "ArrowDown"
  · subst h6; exact Or.inr (Or.inr (Or.inr (Or.inr (Or.inr (Or.inl ⟨rfl, by decide⟩)))))
  by_cases h7 : k = "ArrowLeft"
  · subst h7
    exact Or.inr (Or.inr (Or.inr (Or.inr (Or.inr (Or.inr (Or.inl ⟨rfl, by decide⟩))))))
  by_cases h8 : k = "ArrowRight"
  · subst h8
    exact Or.inr (Or.inr (Or.inr (Or.inr (Or.inr (Or.inr (Or.inr
      (Or.inl ⟨rfl, by decide⟩)))))))
  refine Or.inr (Or.inr (Or.inr (Or.inr (Or.inr (Or.inr (Or.inr (Or.inr ⟨?_, ?_⟩)))))))
  · simp [h1, h2, h3, h4, h5, h6, h7, h8]
  · simp [pressKeyCall, h1, h2, h3, h4, h5, h6, h7, h8]

/-- C9. For every key string `k`, once `EnsurePage` has returned a page the
press-key handler issues exactly one input call: `Keyboard.Press` of the matching key
when `k` is one of the eight key names, and `InsertText` of `k` itself for every other
string, of one character or of several. -/
theorem press_key_input_call (args : Args) (env : Env) (st : State) (k : String)
    (hk : args.lookup "key" = some (.str k))
    (hpage : ensurePageError env st = none) :
    ∃ c : Call, issued (PressKeyHandler args) env st = [.ensurePage, c] ∧
      ((k = "Enter" ∧ c = .keyboardPress .Enter) ∨
       (k = "Tab" ∧ c = .keyboardPress .Tab) ∨
       (k = "Backspace" ∧ c = .keyboardPress .Backspace) ∨
       (k = "Escape" ∧ c = .keyboardPress .Escape) ∨
       (k = "ArrowUp" ∧ c = .keyboardPress .ArrowUp) ∨
       (k = "ArrowDown" ∧ c = .keyboardPress .ArrowDown) ∨
       (k = "ArrowLeft" ∧ c = .keyboardPress .ArrowLeft) ∨
       (k = "ArrowRight" ∧ c = .keyboardPress .ArrowRight) ∨
       (k ∉ ["Enter", "Tab", "Backspace", "Escape", "ArrowUp", "ArrowDown",
          "ArrowLeft", "ArrowRight"] ∧ c = .insertText k)) := by
  refine ⟨pressKeyCall k, ?_, pressKeyCall_cases k⟩
  have he : (ensurePageResult env st).2 = none := hpage
  simp only [issued, PressKeyHandler, EnsurePage_bind, he, check_none_bind, hk,
    assertString_str_bind, call_bind]
  cases env.fail ((EnsurePage env st).2.trace) (pressKeyCall k) <;> simp

/-- Witness of C9 at the key `a`. -/
theorem press_key_input_call_witness :
    ∃ c : Call, issued (PressKeyHandler [("key", .str "a")]) okEnv freshState
        = [.ensurePage, c] ∧
      (("a" = "Enter" ∧ c = .keyboardPress .Enter) ∨
       ("a" = "Tab" ∧ c = .keyboardPress .Tab) ∨
       ("a" = "Backspace" ∧ c = .keyboardPress .Backspace) ∨
       ("a" = "Escape" ∧ c = .keyboardPress .Escape) ∨
       ("a" = "ArrowUp" ∧ c = .keyboardPress .ArrowUp) ∨
       ("a" = "ArrowDown" ∧ c = .keyboardPress .ArrowDown) ∨
       ("a" = "ArrowLeft" ∧ c = .keyboardPress .ArrowLeft) ∨
       ("a" = "ArrowRight" ∧ c = .keyboardPress .ArrowRight) ∨
       ("a" ∉ ["Enter", "Tab", "Backspace", "Escape", "ArrowUp", "ArrowDown",
          "ArrowLeft", "ArrowRight"] ∧ c = .insertText "a")) :=
  press_key_input_call [("key", .str "a")] okEnv freshState "a" rfl (by decide)

/-! ## Drag -/

/-- C4. Once both elements have resolved and reported their shapes, the pointer
operations the drag handler issues are a beginning of the sequence move to the centre
of the source box, press left, move to the centre of the target box, release left:
each step is issued only after the one before it succeeded, so the run ends at the
first failing step (after a failed press neither the second move nor any release is
issued) and is the whole sequence when the first three steps succeed. -/
theorem drag_pointer_sequence (args : Args) (env : Env) (st : State)
    (src tgt : String)
    (hsrc : args.lookup "source_selector" = some (.str src))
    (htgt : args.lookup "target_selector" = some (.str tgt))
    (hpage : ensurePageError env st = none)
    (h1 : env.fail (st.trace ++ [.ensurePage]) (.element src) = none)
    (h2 : env.fail (st.trace ++ [.ensurePage, .element src]) (.element tgt) = none)
    (h3 : env.fail (st.trace ++ [.ensurePage, .element src, .element tgt])
      (.elementShape src) = none)
    (h4 : env.fail (st.trace ++ [.ensurePage, .element src, .element tgt,
      .elementShape src]) (.elementShape tgt) = none) :
    let hist := st.trace ++ [.ensurePage, .element src, .element tgt,
      .elementShape src, .elementShape tgt]
    let bs := env.box (st.trace ++ [.ensurePage, .element src, .element tgt,
      .elementShape src]) src
    let bt := env.box hist tgt
    let move1 := Call.mouseMoveTo (fadd env bs.x (fdiv env bs.width 2))
      (fadd env bs.y (fdiv env bs.height 2))
    let press := Call.mouseDown .left 1
    let move2 := Call.mouseMoveTo (fadd env bt.x (fdiv env bt.width 2))
      (fadd env bt.y (fdiv env bt.height 2))
    let release := Call.mouseUp .left 1
    (issued (DragHandler args) env st).filter isPointerOp =
        (match env.fail hist move1 with
        | some _ => [move1]
        | none =>
          match env.fail (hist ++ [move1]) press with
          | some _ => [move1, press]
          | none =>
            match env.fail (hist ++ [move1, press]) move2 with
            | some _ => [move1, press, move2]
            | none => [move1, press, move2, release]) ∧
      (issued (DragHandler args) env st).filter isPointerOp
        <+: [move1, press, move2, release] := by
  intro hist bs bt move1 press move2 release
  have he : (ensurePageResult env st).2 = none := hpage
  have key : (issued (DragHandler args) env st).filter isPointerOp =
      (match env.fail hist move1 with
        | some _ => [move1]
        | none =>
          match env.fail (hist ++ [move1]) press with
          | some _ => [move1, press]
          | none =>
            match env.fail (hist ++ [move1, press]) move2 with
            | some _ => [move1, press, move2]
            | none => [move1, press, move2, release]) := by
    simp only [issued, DragHandler, EnsurePage_bind, he, check_none_bind, hsrc, htgt,
      assertString_str_bind, call_bind, EnsurePage_trace, List.append_assoc,
      List.singleton_append, List.cons_append, List.nil_append, h1, h2, h3, h4,
      shapeBox_bind, getEnv_bind]
    cases hm1 : env.fail hist move1 with
    | some e =>
      have hm1' := hm1
      simp only [hist, move1, bs, List.append_assoc, List.cons_append,
        List.nil_append] at hm1'
      simp [hm1', isPointerOp]
    | none =>
      have hm1' := hm1
      simp only [hist, move1, bs, List.append_assoc, List.cons_append,
        List.nil_append] at hm1'
      cases hp : env.fail (hist ++ [move1]) press with
      | some e =>
        have hp' := hp
        simp only [hist, move1, bs, press, List.append_assoc, List.cons_append,
          List.nil_append] at hp'
        simp [hm1', hp', isPointerOp]
      | none =>
        have hp' := hp
        simp only [hist, move1, bs, press, List.append_assoc, List.cons_append,
          List.nil_append] at hp'
        cases hm2 : env.fail (hist ++ [move1, press]) move2 with
        | some e =>
          have hm2' := hm2
          simp only [hist, move1, bs, bt, press, move2, List.append_assoc,
            List.cons_append, List.nil_append] at hm2'
          simp [hm1', hp', hm2', isPointerOp]
        | none =>
          have hm2' := hm2
          simp only [hist, move1, bs, bt, press, move2, List.append_assoc,
            List.cons_append, List.nil_append] at hm2'
          simp only [hm1', hp', hm2', check_none_bind, call_bind, List.append_assoc,
            List.cons_append, List.nil_append]
          cases env.fail (st.trace ++ [.ensurePage, .element src, .element tgt,
            .elementShape src, .elementShape tgt, move1, press, move2]) release <;>
            simp [isPointerOp, move1, press, move2, release, bs, bt, hist]
  refine ⟨key, ?_⟩
  rw [key]
  cases env.fail hist move1 with
  | some e => exact ⟨[press, move2, release], rfl⟩
  | none =>
    cases env.fail (hist ++ [move1]) press with
    | some e => exact ⟨[move2, release], rfl⟩
    | none =>
      cases env.fail (hist ++ [move1, press]) move2 with
      | some e => exact ⟨[release], rfl⟩
      | none => exact ⟨[], rfl⟩

/-- Witness of C4: a drag from `#a` to `#b` in which the press fails stops after the
move to the centre of `#a` and the press. -/
theorem drag_pointer_sequence_witness :
    (issued (DragHandler dragArgs) pressFailsEnv freshState).filter isPointerOp
      = [.mouseMoveTo 60 45, .mouseDown .left 1] := by
  have h := (drag_pointer_sequence dragArgs pressFailsEnv freshState "#a" "#b" rfl rfl
    (by decide) rfl rfl rfl rfl).1
  rw [h]
  simp only [pressFailsEnv, fadd, fdiv]
  norm_num

/-! ## Screenshot -/

theorem truncate_of_nonneg (t : ℚ) (h0 : 0 ≤ t) : truncate t = ⌊t⌋ := by
  have hnum : 0 ≤ t.num := Rat.num_nonneg.2 h0
  rw [truncate, Rat.floor_def, Int.tdiv_eq_ediv hnum (Int.ofNat_nonneg _)]

/-- C10, the counterexample: a screenshot request with width 800.7 and no selector
sets the viewport to width 800, which is not the supplied width. -/
theorem screenshot_fractional_width :
    issued (ScreenshotHandler [("name", .str "shot"), ("width", .num width800_7)])
        okEnv freshState
      = [.ensurePage, .setViewport 800 600, .pageScreenshot false] ∧
    ((800 : Int) : ℚ) ≠ width800_7 := by
  decide

/-- C10, amended. For a screenshot request with a name, once `EnsurePage` has
returned a page: with a non-empty string selector the handler resolves that element
and, if it resolved, screenshots it, and issues nothing else (no `SetViewport`, no
page screenshot); otherwise it calls `SetViewport` with width `w` and height `h` and,
if that succeeded, takes one page screenshot.  Here `w` is 800 when no numeric width
is supplied; for a supplied number `x` it is `x` rounded toward zero (the floor of a
non-negative `x`, the ceiling of a negative one) when that integer lies in the `int64`
range, and the platform's out-of-range result otherwise.  The height `h` is obtained
in the same way, with 600 for 800. -/
theorem screenshot_calls (args : Args) (env : Env) (st : State) (name : String)
    (hname : args.lookup "name" = some (.str name))
    (hpage : ensurePageError env st = none) :
    (∀ sel : String, args.lookup "selector" = some (.str sel) → sel ≠ "" →
      issued (ScreenshotHandler args) env st =
        [.ensurePage, .element sel] ++
          (match env.fail (st.trace ++ [.ensurePage]) (.element sel) with
          | some _ => []
          | none => [.elementScreenshot sel .png 100])) ∧
    ((∀ sel : String, args.lookup "selector" = some (.str sel) → sel = "") →
      ∀ w h : Int,
        w = (match args.lookup "width" with
          | some (.num x) =>
            if -9223372036854775808 ≤ (if 0 ≤ x then ⌊x⌋ else ⌈x⌉) ∧
                (if 0 ≤ x then ⌊x⌋ else ⌈x⌉) ≤ 9223372036854775807
              then (if 0 ≤ x then ⌊x⌋ else ⌈x⌉) else env.convOOR x
          | _ => 800) →
        h = (match args.lookup "height" with
          | some (.num x) =>
            if -9223372036854775808 ≤ (if 0 ≤ x then ⌊x⌋ else ⌈x⌉) ∧
                (if 0 ≤ x then ⌊x⌋ else ⌈x⌉) ≤ 9223372036854775807
              then (if 0 ≤ x then ⌊x⌋ else ⌈x⌉) else env.convOOR x
          | _ => 600) →
        issued (ScreenshotHandler args) env st =
          [.ensurePage, .setViewport w h] ++
            (match env.fail (st.trace ++ [.ensurePage]) (.setViewport w h) with
            | some _ => []
            | none => [.pageScreenshot false])) := by
  have he : (ensurePageResult env st).2 = none := hpage
  have htrunc : ∀ x : ℚ, truncate x = if 0 ≤ x then ⌊x⌋ else ⌈x⌉ := by
    intro x
    by_cases h0 : 0 ≤ x
    · have hnum : 0 ≤ x.num := Rat.num_nonneg.2 h0
      rw [if_pos h0, truncate, Rat.floor_def, Int.tdiv_eq_ediv hnum (Int.ofNat_nonneg _)]
    · have hneg : 0 ≤ -x := by
        have hlt := not_le.1 h0
        linarith
      have hnum : 0 ≤ (-x).num := Rat.num_nonneg.2 hneg
      have hfl : ⌊-x⌋ = (-x).num / ((-x).den : Int) := Rat.floor_def
      rw [Rat.neg_num, Rat.neg_den] at hfl
      rw [Rat.neg_num] at hnum
      have ht : Int.tdiv (-x.num) x.den = (-x.num) / (x.den : Int) :=
        Int.tdiv_eq_ediv hnum (Int.ofNat_nonneg _)
      rw [Int.neg_tdiv] at ht
      rw [Int.floor_neg] at hfl
      rw [if_neg h0, truncate]
      omega
  have hconv : ∀ x : ℚ, toInt64 env x =
      if -9223372036854775808 ≤ (if 0 ≤ x then ⌊x⌋ else ⌈x⌉) ∧
          (if 0 ≤ x then ⌊x⌋ else ⌈x⌉) ≤ 9223372036854775807
        then (if 0 ≤ x then ⌊x⌋ else ⌈x⌉) else env.convOOR x := by
    intro x
    rw [toInt64, htrunc]
  refine ⟨?_, ?_⟩
  · intro sel hsel hne
    simp only [issued, ScreenshotHandler, EnsurePage_bind, he, check_none_bind, hname,
      assertString_str_bind, hsel, commaOkString, EnsurePage_trace]
    simp only [hne, bne_iff_ne, ne_eq, not_false_eq_true, Bool.and_self, if_true,
      Bool.true_and, decide_True, call_bind, EnsurePage_trace]
    cases h1 : env.fail (st.trace ++ [.ensurePage]) (.element sel) with
    | some e => simp
    | none =>
      simp only [check_none_bind, call_bind]
      cases env.fail (st.trace ++ [.ensurePage] ++ [.element sel])
        (.elementScreenshot sel .png 100) <;> simp
  · intro hsel w h hw hh
    have hbranch : ((commaOkString (args.lookup "selector")).2 &&
        (commaOkString (args.lookup "selector")).1 != "") = false := by
      cases hl : args.lookup "selector" with
      | none => rfl
      | some v =>
        cases v with
        | str s => simp [commaOkString, hsel s hl]
        | null => rfl
        | bool b => rfl
        | num x => rfl
        | composite => rfl
    have hw2 : (if (commaOkFloat (args.lookup "width")).2 = true
        then toInt64 env (commaOkFloat (args.lookup "width")).1 else 800) = w := by
      rw [hw]
      cases args.lookup "width" with
      | none => rfl
      | some v =>
        cases v with
        | num x => exact hconv x
        | null => rfl
        | bool b => rfl
        | str s => rfl
        | composite => rfl
    have hh2 : (if (commaOkFloat (args.lookup "height")).2 = true
        then toInt64 env (commaOkFloat (args.lookup "height")).1 else 600) = h := by
      rw [hh]
      cases args.lookup "height" with
      | none => rfl
      | some v =>
        cases v with
        | num x => exact hconv x
        | null => rfl
        | bool b => rfl
        | str s => rfl
        | composite => rfl
    simp only [issued, ScreenshotHandler, EnsurePage_bind, he, check_none_bind, hname,
      assertString_str_bind, hbranch, getEnv_bind, Bool.false_eq_true, if_false,
      hw2, hh2, call_bind, EnsurePage_trace]
    cases h1 : env.fail (st.trace ++ [.ensurePage]) (.setViewport w h) with
    | some e => simp
    | none =>
      simp only [check_none_bind, call_bind]
      cases env.fail (st.trace ++ [.ensurePage] ++ [.setViewport w h])
        (.pageScreenshot false) <;> simp

/-- Witness of C10, amended: a request with the selector `#logo` screenshots that
element only; a request with width 800.7 and height -600.5 sets the viewport to 800
by -600 and takes one page screenshot. -/
theorem screenshot_calls_witness :
    issued (ScreenshotHandler [("name", .str "shot"), ("selector", .str "#logo")])
        okEnv freshState
      = [.ensurePage, .element "#logo", .elementScreenshot "#logo" .png 100] ∧
    issued (ScreenshotHandler [("name", .str "shot"), ("width", .num width800_7),
        ("height", .num minus600_5)]) okEnv freshState
      = [.ensurePage, .setViewport 800 (-600), .pageScreenshot false] :=
  ⟨(screenshot_calls [("name", .str "shot"), ("selector", .str "#logo")] okEnv
      freshState "shot" rfl (by decide)).1 "#logo" rfl (by decide),
    (screenshot_calls [("name", .str "shot"), ("width", .num width800_7),
      ("height", .num minus600_5)] okEnv freshState "shot" rfl (by decide)).2
      (fun _ h => by simp [List.lookup] at h) 800 (-600) (by decide) (by decide)⟩

/-! ## Close and the session -/

/-- C6, the counterexample: closing the browser of a session that holds browser `0`
and page `1` succeeds, and afterwards `GetBrowser` still returns browser `0` and
`EnsurePage` still returns page `1`. -/
theorem close_keeps_handles :
    (CloseBrowserHandler [] okEnv launchedState).1 = .ok "Browser closed successfully" ∧
    (GetBrowser okEnv (CloseBrowserHandler [] okEnv launchedState).2).1 = .ok (some 0) ∧
    (EnsurePage okEnv (CloseBrowserHandler [] okEnv launchedState).2).1
      = .ok (some 1, none) := by
  decide

/-- C6, amended. After the close handler returns success the session's browser and
page references are what they were before: `GetBrowser` still returns the browser
that was closed, and a subsequent `EnsurePage` keeps that browser and returns the page
the session held, if it held one. -/
theorem close_leaves_session (args : Args) (env : Env) (st : State) (text : String)
    (hok : (CloseBrowserHandler args env st).1 = .ok text) :
    (CloseBrowserHandler args env st).2.session = st.session ∧
    (∃ b : Nat, (GetBrowser env (CloseBrowserHandler args env st).2).1 = .ok (some b) ∧
      st.session.browser = some b ∧
      (EnsurePage env (CloseBrowserHandler args env st).2).2.session.browser = some b) ∧
    (∀ p : Nat, st.session.page = some p →
      (EnsurePage env (CloseBrowserHandler args env st).2).1 = .ok (some p, none) ∧
      (EnsurePage env (CloseBrowserHandler args env st).2).2.session = st.session) := by
  cases hb : st.session.browser with
  | none =>
    simp [CloseBrowserHandler, hb] at hok
  | some b =>
    have hsess : (CloseBrowserHandler args env st).2.session = st.session := by
      simp only [CloseBrowserHandler, GetBrowser_bind, hb]
      cases hc : env.fail (st.trace ++ [.getBrowser]) .browserClose <;> simp [hc]
    refine ⟨hsess, ⟨b, ?_, rfl, ?_⟩, ?_⟩
    · simp [GetBrowser, hsess, hb]
    · simp only [EnsurePage, hsess]
      cases st.session.page with
      | some p => simp [hb]
      | none =>
        simp only []
        cases env.fail (CloseBrowserHandler args env st).2.trace .ensurePage <;>
          simp [hb]
    · intro p hp
      simp [EnsurePage, hsess, hp]

/-- Witness of C6, amended, on the session that holds browser `0` and page `1`. -/
theorem close_leaves_session_witness :
    (CloseBrowserHandler [] okEnv launchedState).2.session = launchedState.session :=
  (close_leaves_session [] okEnv launchedState "Browser closed successfully"
    (by decide)).1

/-! ## Missing required parameters -/

theorem assertString_bind_not_str {β : Type} (v : Option Value) (f : String → M β)
    (env : Env) (st : State) (h : ∀ s, v ≠ some (.str s)) :
    (assertString v >>= f) env st = (.panic, st) := by
  cases v with
  | none => rfl
  | some x =>
    cases x with
    | str s => exact absurd rfl (h s)
    | null => rfl
    | bool b => rfl
    | num q => rfl
    | composite => rfl

theorem assertString_bind_cases {β : Type} (v : Option Value) (f : String → M β)
    (env : Env) (st : State) :
    (∃ s, v = some (.str s) ∧ (assertString v >>= f) env st = f s env st) ∨
      (assertString v >>= f) env st = (.panic, st) := by
  cases v with
  | none => exact Or.inr rfl
  | some x =>
    cases x with
    | str s => exact Or.inl ⟨s, rfl, rfl⟩
    | null => exact Or.inr rfl
    | bool b => exact Or.inr rfl
    | num q => exact Or.inr rfl
    | composite => exact Or.inr rfl

/-- A handler that asks for the page, checks the error and then asserts a missing
string argument stops right after `EnsurePage`. -/
theorem stops_of_missing (wrap : String → String) (hwrap : ∀ e, ∃ pre, wrap e = pre ++ e)
    (rest : M String) (env : Env) (st : State)
    (hrest : ∀ st1, rest env st1 = (.panic, st1)) :
    StopsAfterEnsurePage
      (do
        let page ← EnsurePage
        check page.2 wrap
        rest) env st := by
  simp only [StopsAfterEnsurePage, issued, EnsurePage_bind, ensurePageError]
  cases he : (ensurePageResult env st).2 with
  | some e =>
    obtain ⟨pre, hpre⟩ := hwrap e
    simp only [check_some_bind, EnsurePage_trace, drop_length_append, hpre]
    exact ⟨trivial, fun h => absurd h (by simp), fun e1 h1 => ⟨pre, by
      cases h1
      rfl⟩⟩
  | none => simp [hrest]

/-- With one of two asserted string arguments missing, the assertions panic. -/
theorem two_asserts_panic (a b p : String) (args : Args) (f : String → String → M String)
    (hp : p = a ∨ p = b) (hmiss : args.lookup p = none) (env : Env) (st : State) :
    (do
      let x ← assertString (args.lookup a)
      let y ← assertString (args.lookup b)
      f x y : M String) env st = (.panic, st) := by
  rcases hp with rfl | rfl
  · simp [hmiss]
  · rcases assertString_bind_cases (args.lookup a)
      (fun x => do
        let y ← assertString (args.lookup p)
        f x y) env st with ⟨s, _, h⟩ | h
    · rw [h]
      simp [hmiss]
    · exact h

theorem NavigationHandler_missing (args : Args) (env : Env) (st : State)
    (h : args.lookup "url" = none) : NavigationHandler args env st = (.panic, st) := by
  simp [NavigationHandler, h]

theorem WaitHandler_missing (args : Args) (env : Env) (st : State)
    (h : args.lookup "time" = none) : WaitHandler args env st = (.panic, st) := by
  simp [WaitHandler, h]

theorem PressKeyHandler_missing (args : Args) (env : Env) (st : State)
    (h : args.lookup "key" = none) :
    StopsAfterEnsurePage (PressKeyHandler args) env st :=
  stops_of_missing _ (fun _ => ⟨_, rfl⟩) _ env st (fun st1 => by simp [h])

theorem ClickHandler_missing (args : Args) (env : Env) (st : State)
    (h : args.lookup "selector" = none) :
    StopsAfterEnsurePage (ClickHandler args) env st :=
  stops_of_missing _ (fun _ => ⟨_, rfl⟩) _ env st (fun st1 => by simp [h])

theorem EvaluateHandler_missing (args : Args) (env : Env) (st : State)
    (h : args.lookup "script" = none) :
    StopsAfterEnsurePage (EvaluateHandler args) env st :=
  stops_of_missing _ (fun _ => ⟨_, rfl⟩) _ env st (fun st1 => by simp [h])

theorem SelectElementHandler_missing (args : Args) (env : Env) (st : State)
    (h : args.lookup "selector" = none) :
    StopsAfterEnsurePage (SelectElementHandler args) env st :=
  stops_of_missing _ (fun _ => ⟨_, rfl⟩) _ env st (fun st1 => by simp [h])

theorem ScreenshotHandler_missing (args : Args) (env : Env) (st : State)
    (h : args.lookup "name" = none) :
    StopsAfterEnsurePage (ScreenshotHandler args) env st :=
  stops_of_missing _ (fun _ => ⟨_, rfl⟩) _ env st (fun st1 => by simp [h])

theorem FillHandler_missing (args : Args) (env : Env) (st : State) (p : String)
    (hp : p = "selector" ∨ p = "value") (h : args.lookup p = none) :
    StopsAfterEnsurePage (FillHandler args) env st :=
  stops_of_missing _ (fun _ => ⟨_, rfl⟩) _ env st
    (fun st1 => two_asserts_panic "selector" "value" p args _ hp h env st1)

theorem SelectorHandler_missing (args : Args) (env : Env) (st : State) (p : String)
    (hp : p = "selector" ∨ p = "value") (h : args.lookup p = none) :
    StopsAfterEnsurePage (SelectorHandler args) env st :=
  stops_of_missing _ (fun _ => ⟨_, rfl⟩) _ env st
    (fun st1 => two_asserts_panic "selector" "value" p args _ hp h env st1)

theorem DragHandler_missing (args : Args) (env : Env) (st : State) (p : String)
    (hp : p = "source_selector" ∨ p = "target_selector") (h : args.lookup p = none) :
    StopsAfterEnsurePage (DragHandler args) env st :=
  stops_of_missing _ (fun _ => ⟨_, rfl⟩) _ env st
    (fun st1 =>
      two_asserts_panic "source_selector" "target_selector" p args _ hp h env st1)

theorem PdfHandler_missing (args : Args) (env : Env) (st : State) (p : String)
    (hp : p = "file_path" ∨ p = "file_name") (h : args.lookup p = none) :
    StopsAfterEnsurePage (PdfHandler args) env st :=
  stops_of_missing _ (fun _ => ⟨_, rfl⟩) _ env st
    (fun st1 => two_asserts_panic "file_path" "file_name" p args _ hp h env st1)

/-- C1, the counterexample: with an empty argument bag the click handler calls
`EnsurePage` and then panics at the type assertion on `selector`; it returns no
error. -/
theorem click_without_selector :
    (ClickHandler [] okEnv freshState).1 = .panic ∧
    issued (ClickHandler []) okEnv freshState = [.ensurePage] := by
  decide

/-- C1, amended. When a required parameter of a command is missing from the argument
bag the handler returns no result and no `ArgumentError`: the navigate and wait
handlers panic at the type assertion with the state untouched (no session or driver
call); each of the other handlers calls `EnsurePage`, and nothing else, and then
returns the wrapped error of `EnsurePage` if it failed and panics at the type
assertion otherwise. -/
theorem missing_required_parameter (t : Tool) (p : Param) (h : ToolHandler)
    (args : Args) (env : Env) (st : State)
    (ht : t ∈ CommonTools) (hp : p ∈ t.params) (hreq : p.required = true)
    (hh : (t.name, h) ∈ CommonToolHandlers) (hmiss : args.lookup p.name = none) :
    ((t.name = "rod_navigate" ∨ t.name = "rod_wait") ∧ h args env st = (.panic, st)) ∨
    ((t.name ≠ "rod_navigate" ∧ t.name ≠ "rod_wait") ∧
      StopsAfterEnsurePage (h args) env st) := by
  simp only [CommonTools, List.mem_cons, List.mem_singleton, List.not_mem_nil,
    or_false] at ht
  rcases ht with rfl | rfl | rfl | rfl | rfl | rfl | rfl | rfl | rfl | rfl | rfl | rfl |
    rfl | rfl | rfl | rfl | rfl
  · simp [Navigation, CommonToolHandlers] at hp hh
    subst hp hh
    exact Or.inl ⟨Or.inl rfl, NavigationHandler_missing args env st hmiss⟩
  · simp [GoBack] at hp
  · simp [GoForward] at hp
  · simp [ReLoad] at hp
  · simp [PressKey, CommonToolHandlers] at hp hh
    subst hp hh
    exact Or.inr ⟨⟨by decide, by decide⟩, PressKeyHandler_missing args env st hmiss⟩
  · simp [Click, CommonToolHandlers] at hp hh
    subst hp hh
    exact Or.inr ⟨⟨by decide, by decide⟩, ClickHandler_missing args env st hmiss⟩
  · simp [Fill, CommonToolHandlers] at hp hh
    subst hh
    refine Or.inr ⟨⟨by decide, by decide⟩, ?_⟩
    rcases hp with rfl | rfl
    · exact FillHandler_missing args env st _ (Or.inl rfl) hmiss
    · exact FillHandler_missing args env st _ (Or.inr rfl) hmiss
  · simp [Selector, CommonToolHandlers] at hp hh
    subst hh
    refine Or.inr ⟨⟨by decide, by decide⟩, ?_⟩
    rcases hp with rfl | rfl
    · exact SelectorHandler_missing args env st _ (Or.inl rfl) hmiss
    · exact SelectorHandler_missing args env st _ (Or.inr rfl) hmiss
  · simp [Drag, CommonToolHandlers] at hp hh
    subst hh
    refine Or.inr ⟨⟨by decide, by decide⟩, ?_⟩
    rcases hp with rfl | rfl
    · exact DragHandler_missing args env st _ (Or.inl rfl) hmiss
    · exact DragHandler_missing args env st _ (Or.inr rfl) hmiss
  · simp [Screenshot, CommonToolHandlers] at hp hh
    subst hh
    refine Or.inr ⟨⟨by decide, by decide⟩, ?_⟩
    rcases hp with rfl | rfl | rfl | rfl
    · exact ScreenshotHandler_missing args env st hmiss
    · simp at hreq
    · simp at hreq
    · simp at hreq
  · simp [Pdf, CommonToolHandlers] at hp hh
    subst hh
    refine Or.inr ⟨⟨by decide, by decide⟩, ?_⟩
    rcases hp with rfl | rfl
    · exact PdfHandler_missing args env st _ (Or.inl rfl) hmiss
    · exact PdfHandler_missing args env st _ (Or.inr rfl) hmiss
  · simp [Wait, CommonToolHandlers] at hp hh
    subst hp hh
    exact Or.inl ⟨Or.inr rfl, WaitHandler_missing args env st hmiss⟩
  · simp [Snapshot] at hp
  · simp [CloseBrowser] at hp
  · simp [Evaluate, CommonToolHandlers] at hp hh
    subst hp hh
    exact Or.inr ⟨⟨by decide, by decide⟩, EvaluateHandler_missing args env st hmiss⟩
  · simp [SelectElement, CommonToolHandlers] at hp hh
    subst hh
    refine Or.inr ⟨⟨by decide, by decide⟩, ?_⟩
    rcases hp with rfl | rfl | rfl
    · exact SelectElementHandler_missing args env st hmiss
    · simp at hreq
    · simp at hreq
  · simp [GetText] at hp
    rcases hp with rfl | rfl | rfl <;> simp at hreq

/-- Witness of C1, amended: the click handler with an empty argument bag on a fresh
session. -/
theorem missing_required_parameter_witness :
    (("rod_click" = "rod_navigate" ∨ "rod_click" = "rod_wait") ∧
      ClickHandler [] okEnv freshState = (.panic, freshState)) ∨
    (("rod_click" ≠ "rod_navigate" ∧ "rod_click" ≠ "rod_wait") ∧
      StopsAfterEnsurePage (ClickHandler []) okEnv freshState) :=
  missing_required_parameter Click
    ⟨"selector", .string, "CSS selector of the element to click", true⟩ ClickHandler []
    okEnv freshState (by simp [CommonTools]) (by simp [Click]) rfl
    (by simp [CommonToolHandlers, Click]) rfl

/-! ## Error texts -/

theorem mentions_right (a s : String) : Mentions (a ++ s) s := by
  simp only [Mentions, String.data_append]
  exact ⟨a.data, [], by simp⟩

theorem mentions_append (m c s : String) (h : Mentions m s) : Mentions (m ++ c) s := by
  simp only [Mentions, String.data_append] at *
  exact List.IsInfix.trans h (List.infix_append' [] m.data c.data)

theorem append_ne_empty (a b : String) (hb : b ≠ "") : a ++ b ≠ "" := by
  intro h
  apply hb
  have hd : (a ++ b).data = [] := by rw [h]
  rw [String.data_append, List.append_eq_nil] at hd
  exact String.ext hd.2

theorem fixedDescriptions_ne_empty (pre : String) (h : pre ∈ fixedDescriptions) :
    pre ≠ "" := by
  intro he
  subst he
  revert h
  decide

theorem allSucceed_snoc (env : Env) (st : State) (c : Call) :
    ∀ (cs hist : List Call),
      AllSucceed env st hist (cs ++ [c]) ↔
        AllSucceed env st hist cs ∧
          (c.isWait = true ∨ callError env st (hist ++ cs) c = none) := by
  intro cs
  induction cs with
  | nil =>
    intro hist
    simp [AllSucceed]
  | cons d ds ih =>
    intro hist
    show ((d.isWait = true ∨ callError env st hist d = none) ∧
      AllSucceed env st (hist ++ [d]) (ds ++ [c])) ↔ _
    rw [ih (hist ++ [d])]
    simp [AllSucceed, and_assoc]

theorem allSucceed_mid (env : Env) (st : State) (c : Call) (rest : List Call) :
    ∀ (pre hist : List Call), AllSucceed env st hist (pre ++ c :: rest) →
      c.isWait = true ∨ callError env st (hist ++ pre) c = none := by
  intro pre
  induction pre with
  | nil =>
    intro hist h
    simpa using h.1
  | cons d ds ih =>
    intro hist h
    have h2 := ih (hist ++ [d]) h.2
    simpa using h2

theorem ready_snoc {env : Env} {st0 st : State} {done : List Call} (c : Call)
    (hr : Ready env st0 st done)
    (hc : c.isWait = true ∨ callError env st0 st.trace c = none) :
    Ready env st0 { st with trace := st.trace ++ [c] } (done ++ [c]) := by
  refine ⟨by simp [hr.1], ?_⟩
  rw [allSucceed_snoc]
  refine ⟨hr.2, ?_⟩
  rw [← hr.1]
  exact hc

theorem reports_ok {name : String} {args : Args} {env : Env} {st0 st : State}
    {done : List Call} (hr : Ready env st0 st done) (x : String) :
    Reports name args env st0 (.ok x, st) :=
  ⟨done, hr.1, hr.2⟩

theorem reports_panic {name : String} {args : Args} {env : Env} {st0 st : State}
    {done : List Call} (hr : Ready env st0 st done) :
    Reports name args env st0 (.panic, st) :=
  ⟨done, hr.1, hr.2⟩

theorem reports_assertString {name : String} {args : Args} {env : Env} {st0 st : State}
    {done : List Call} (hr : Ready env st0 st done) (v : Option Value)
    (f : String → M String)
    (h : ∀ s, v = some (.str s) → Reports name args env st0 (f s env st)) :
    Reports name args env st0 ((assertString v >>= f) env st) := by
  rcases assertString_bind_cases v f env st with ⟨s, hv, hs⟩ | hp
  · rw [hs]
    exact h s hv
  · rw [hp]
    exact reports_panic hr

theorem reports_assertFloat {name : String} {args : Args} {env : Env} {st0 st : State}
    {done : List Call} (hr : Ready env st0 st done) (v : Option Value)
    (f : ℚ → M String)
    (h : ∀ x, Reports name args env st0 (f x env st)) :
    Reports name args env st0 ((assertFloat v >>= f) env st) := by
  cases v with
  | none => exact reports_panic hr
  | some x =>
    cases x with
    | num q => exact h q
    | null => exact reports_panic hr
    | bool b => exact reports_panic hr
    | str t => exact reports_panic hr
    | composite => exact reports_panic hr

theorem callError_of_ne {env : Env} {st0 : State} {hist : List Call} {c : Call}
    (h1 : c ≠ .ensurePage) (h2 : c ≠ .getBrowser) :
    callError env st0 hist c = env.fail hist c := by
  cases c <;> first | rfl | exact absurd rfl h1 | exact absurd rfl h2

theorem reports_call_check {name : String} {args : Args} {env : Env} {st0 st : State}
    {done : List Call} {c : Call} {wrap : String → String} {f : Unit → M String}
    (hr : Ready env st0 st done)
    (hc : c ≠ .ensurePage ∧ c ≠ .getBrowser ∧ c.isWait = false)
    (hd : ∃ pre, (∀ e, wrap e = pre ++ e) ∧ DescribesFailure name args c pre)
    (hrest : Ready env st0 { st with trace := st.trace ++ [c] } (done ++ [c]) →
      Reports name args env st0 (f () env { st with trace := st.trace ++ [c] })) :
    Reports name args env st0
      ((call c >>= fun err => check err wrap >>= f) env st) := by
  rw [call_bind]
  have hce : callError env st0 st.trace c = env.fail st.trace c :=
    callError_of_ne hc.1 hc.2.1
  cases h : env.fail st.trace c with
  | none =>
    rw [check_none_bind]
    exact hrest (ready_snoc c hr (Or.inr (by rw [hce, h])))
  | some e =>
    rw [check_some_bind]
    obtain ⟨pre, hpre, hdesc⟩ := hd
    refine ⟨done ++ [c], by simp [hr.1], ?_⟩
    refine Or.inr (Or.inr ⟨done, c, e, pre, rfl, hr.2, hc.2.2, ?_, hpre e, hdesc⟩)
    rw [← hr.1, hce, h]

theorem reports_call_wait {name : String} {args : Args} {env : Env} {st0 st : State}
    {done : List Call} {c : Call} {f : Option String → M String}
    (hr : Ready env st0 st done) (hc : c.isWait = true)
    (hrest : ∀ e, Ready env st0 { st with trace := st.trace ++ [c] } (done ++ [c]) →
      Reports name args env st0 (f e env { st with trace := st.trace ++ [c] })) :
    Reports name args env st0 ((call c >>= f) env st) := by
  rw [call_bind]
  exact hrest _ (ready_snoc c hr (Or.inl hc))

theorem ready_start (env : Env) (st : State) : Ready env st st [] :=
  ⟨by simp, trivial⟩

theorem reports_ensure {name : String} {args : Args} {env : Env} {st : State}
    {wrap : String → String} {f : Unit → M String}
    (hd : ∃ pre, (∀ e, wrap e = pre ++ e) ∧ DescribesFailure name args .ensurePage pre)
    (hrest : Ready env st (EnsurePage env st).2 [.ensurePage] →
      Reports name args env st (f () env (EnsurePage env st).2)) :
    Reports name args env st
      ((EnsurePage >>= fun page => check page.2 wrap >>= f) env st) := by
  rw [EnsurePage_bind]
  have hce : callError env st (st.trace ++ []) .ensurePage = ensurePageError env st := by
    simp [callError]
  cases h : (ensurePageResult env st).2 with
  | none =>
    rw [check_none_bind]
    refine hrest ⟨EnsurePage_trace env st, ?_⟩
    refine ⟨Or.inr ?_, trivial⟩
    have h2 := hce
    simp only [List.append_nil] at h2
    rw [h2]
    exact h
  | some e =>
    rw [check_some_bind]
    obtain ⟨pre, hpre, hdesc⟩ := hd
    refine ⟨[.ensurePage], EnsurePage_trace env st, ?_⟩
    refine Or.inr (Or.inr ⟨[], .ensurePage, e, pre, rfl, trivial, rfl, ?_, hpre e, hdesc⟩)
    rw [hce]
    exact h

theorem describes_fixed {name : String} {args : Args} {c : Call} {pre : String}
    (hpre : pre ∈ fixedDescriptions) (ht : c.target = none)
    (hnav : name = "rod_navigate" → c ≠ .ensurePage)
    (hkey : name = "rod_press_key" → ∀ key, c ≠ .keyboardPress key)
    (hsel : name = "rod_select_element" → ∀ js, c ≠ .pageEval js) :
    DescribesFailure name args c pre := by
  refine ⟨fixedDescriptions_ne_empty pre hpre, ?_, ?_, ?_, ?_, ?_, fun _ _ _ _ => hpre⟩
  · intro target h
    rw [ht] at h
    cases h
  · intro hn hc
    exact absurd hc (hnav hn)
  · intro hn ⟨key, hc⟩
    exact absurd hc (hkey hn key)
  · intro hn ⟨js, hc⟩
    exact absurd hc (hsel hn js)
  · intro _ ⟨sel, js, hc⟩
    rw [hc] at ht
    cases ht

theorem describes_target {name : String} {args : Args} {c : Call} {pre target : String}
    (ht : c.target = some target) (hne : pre ≠ "") (hm : Mentions pre target)
    (hval : name = "rod_selector" → (∃ sel js, c = .elementEval sel js) →
      ∀ v, args.lookup "value" = some (.str v) → Mentions pre v) :
    DescribesFailure name args c pre := by
  refine ⟨hne, ?_, ?_, ?_, ?_, hval, ?_⟩
  · intro t h
    rw [ht] at h
    cases h
    exact hm
  · intro _ hc
    rw [hc] at ht
    cases ht
  · intro _ ⟨key, hc⟩
    rw [hc] at ht
    cases ht
  · intro _ ⟨js, hc⟩
    rw [hc] at ht
    cases ht
  · intro h
    rw [ht] at h
    cases h

theorem pressKeyCall_ne_ensurePage (k : String) : pressKeyCall k ≠ .ensurePage := by
  rcases pressKeyCall_cases k with h | h | h | h | h | h | h | h | h <;>
    simp [h.2]

theorem pressKeyCall_target (k target : String)
    (h : (pressKeyCall k).target = some target) : target = k := by
  rcases pressKeyCall_cases k with h1 | h1 | h1 | h1 | h1 | h1 | h1 | h1 | h1 <;>
    simp [h1.2, Call.target] at h
  exact h.symm

theorem describes_navigate_ensure (args : Args) (url : String)
    (hurl : args.lookup "url" = some (.str url)) :
    DescribesFailure "rod_navigate" args .ensurePage
      ("Failed to navigate to " ++ url ++ ": ") := by
  refine ⟨append_ne_empty _ _ (by decide), ?_, ?_, ?_, ?_, ?_, ?_⟩
  · intro target h
    cases h
  · intro _ _ url2 h2
    rw [hurl] at h2
    cases h2
    exact mentions_append _ _ _ (mentions_right _ _)
  · intro h
    exact absurd h (by decide)
  · intro h
    exact absurd h (by decide)
  · intro h
    exact absurd h (by decide)
  · intro _ h _ _
    exact absurd ⟨rfl, rfl⟩ h

theorem describes_press_key (args : Args) (k : String)
    (hk : args.lookup "key" = some (.str k)) :
    DescribesFailure "rod_press_key" args (pressKeyCall k)
      ("Failed to press key " ++ k ++ ": ") := by
  have hm : Mentions ("Failed to press key " ++ k ++ ": ") k :=
    mentions_append _ _ _ (mentions_right _ _)
  refine ⟨append_ne_empty _ _ (by decide), ?_, ?_, ?_, ?_, ?_, ?_⟩
  · intro target h
    rw [pressKeyCall_target k target h]
    exact hm
  · intro h
    exact absurd h (by decide)
  · intro _ _ k2 h2
    rw [hk] at h2
    cases h2
    exact hm
  · intro h
    exact absurd h (by decide)
  · intro h
    exact absurd h (by decide)
  · intro ht _ hkey _
    exfalso
    apply hkey
    refine ⟨rfl, ?_⟩
    rcases pressKeyCall_cases k with h | h | h | h | h | h | h | h | h
    · exact ⟨_, h.2⟩
    · exact ⟨_, h.2⟩
    · exact ⟨_, h.2⟩
    · exact ⟨_, h.2⟩
    · exact ⟨_, h.2⟩
    · exact ⟨_, h.2⟩
    · exact ⟨_, h.2⟩
    · exact ⟨_, h.2⟩
    · rw [h.2] at ht
      cases ht

theorem pressKeyCall_plain (k : String) :
    pressKeyCall k ≠ .ensurePage ∧ pressKeyCall k ≠ .getBrowser ∧
      (pressKeyCall k).isWait = false := by
  rcases pressKeyCall_cases k with h | h | h | h | h | h | h | h | h <;>
    simp [h.2, Call.isWait]

theorem describes_select_element (args : Args) (sel js : String)
    (hsel : args.lookup "selector" = some (.str sel)) :
    DescribesFailure "rod_select_element" args (.pageEval js)
      ("Failed to select elements with selector " ++ sel ++ ": ") := by
  refine ⟨append_ne_empty _ _ (by decide), ?_, ?_, ?_, ?_, ?_, ?_⟩
  · intro target h
    cases h
  · intro h
    exact absurd h (by decide)
  · intro h
    exact absurd h (by decide)
  · intro _ _ sel2 h2
    rw [hsel] at h2
    cases h2
    exact mentions_append _ _ _ (mentions_right _ _)
  · intro h
    exact absurd h (by decide)
  · intro _ _ _ h
    exact absurd ⟨rfl, _, rfl⟩ h

theorem describes_select_option (args : Args) (sel value js : String)
    (hvalue : args.lookup "value" = some (.str value)) :
    DescribesFailure "rod_selector" args (.elementEval sel js)
      ("Failed to select option " ++ value ++ " in element " ++ sel ++ ": ") :=
  describes_target rfl (append_ne_empty _ _ (by decide))
    (mentions_append _ _ _ (mentions_right _ _))
    (fun _ _ v hv => by
      rw [hvalue] at hv
      cases hv
      exact mentions_append _ _ _ (mentions_append _ _ _ (mentions_append _ _ _
        (mentions_right _ _))))

theorem reports_start_assertString {name : String} {args : Args} {env : Env}
    {st : State} (v : Option Value) (f : String → M String)
    (h : ∀ s, v = some (.str s) → Reports name args env st (f s env st)) :
    Reports name args env st ((assertString v >>= f) env st) :=
  reports_assertString (ready_start env st) v f h

theorem NavigationHandler_reports (args : Args) (env : Env) (st : State) :
    Reports "rod_navigate" args env st (NavigationHandler args env st) := by
  unfold NavigationHandler
  refine reports_start_assertString _ _ (fun url hurl => ?_)
  split
  · exact ⟨[], by simp [errorsNew], Or.inl ⟨rfl, rfl⟩⟩
  refine reports_ensure ⟨_, fun e => rfl,
    describes_navigate_ensure args url hurl⟩
    (fun hr => ?_)
  refine reports_call_check hr (by simp [Call.isWait]) ⟨_, fun e => rfl,
    describes_target rfl (append_ne_empty _ _ (by decide))
      (mentions_append _ _ _ (mentions_right _ _)) (by simp)⟩
    (fun hr => ?_)
  refine reports_call_wait hr rfl (fun e hr => ?_)
  exact reports_ok hr _

theorem GoBackHandler_reports (args : Args) (env : Env) (st : State) :
    Reports "rod_go_back" args env st (GoBackHandler args env st) := by
  unfold GoBackHandler
  refine reports_ensure ⟨_, fun e => rfl,
    describes_fixed (by simp [fixedDescriptions]) rfl (by simp) (by simp) (by simp)⟩
    (fun hr => ?_)
  refine reports_call_check hr (by simp [Call.isWait]) ⟨_, fun e => rfl,
    describes_fixed (by simp [fixedDescriptions]) rfl (by simp) (by simp) (by simp)⟩
    (fun hr => ?_)
  refine reports_call_wait hr rfl (fun e hr => ?_)
  exact reports_ok hr _

theorem GoForwardHandler_reports (args : Args) (env : Env) (st : State) :
    Reports "rod_go_forward" args env st (GoForwardHandler args env st) := by
  unfold GoForwardHandler
  refine reports_ensure ⟨_, fun e => rfl,
    describes_fixed (by simp [fixedDescriptions]) rfl (by simp) (by simp) (by simp)⟩
    (fun hr => ?_)
  refine reports_call_check hr (by simp [Call.isWait]) ⟨_, fun e => rfl,
    describes_fixed (by simp [fixedDescriptions]) rfl (by simp) (by simp) (by simp)⟩
    (fun hr => ?_)
  refine reports_call_wait hr rfl (fun e hr => ?_)
  exact reports_ok hr _

theorem ReLoadHandler_reports (args : Args) (env : Env) (st : State) :
    Reports "rod_reload" args env st (ReLoadHandler args env st) := by
  unfold ReLoadHandler
  refine reports_ensure ⟨_, fun e => rfl,
    describes_fixed (by simp [fixedDescriptions]) rfl (by simp) (by simp) (by simp)⟩
    (fun hr => ?_)
  refine reports_call_check hr (by simp [Call.isWait]) ⟨_, fun e => rfl,
    describes_fixed (by simp [fixedDescriptions]) rfl (by simp) (by simp) (by simp)⟩
    (fun hr => ?_)
  refine reports_call_wait hr rfl (fun e hr => ?_)
  exact reports_ok hr _

theorem PressKeyHandler_reports (args : Args) (env : Env) (st : State) :
    Reports "rod_press_key" args env st (PressKeyHandler args env st) := by
  unfold PressKeyHandler
  refine reports_ensure ⟨_, fun e => rfl,
    describes_fixed (by simp [fixedDescriptions]) rfl (by simp) (by simp) (by simp)⟩
    (fun hr => ?_)
  refine reports_assertString hr _ _ (fun keyStr hkey => ?_)
  refine reports_call_check hr (pressKeyCall_plain keyStr) ⟨_, fun e => rfl,
    describes_press_key args keyStr hkey⟩
    (fun hr => ?_)
  exact reports_ok hr _

theorem ClickHandler_reports (args : Args) (env : Env) (st : State) :
    Reports "rod_click" args env st (ClickHandler args env st) := by
  unfold ClickHandler
  refine reports_ensure ⟨_, fun e => rfl,
    describes_fixed (by simp [fixedDescriptions]) rfl (by simp) (by simp) (by simp)⟩
    (fun hr => ?_)
  refine reports_assertString hr _ _ (fun selector hsel => ?_)
  refine reports_call_check hr (by simp [Call.isWait]) ⟨_, fun e => rfl,
    describes_target rfl (append_ne_empty _ _ (by decide))
      (mentions_append _ _ _ (mentions_right _ _)) (by simp)⟩
    (fun hr => ?_)
  refine reports_call_check hr (by simp [Call.isWait]) ⟨_, fun e => rfl,
    describes_target rfl (append_ne_empty _ _ (by decide))
      (mentions_append _ _ _ (mentions_right _ _)) (by simp)⟩
    (fun hr => ?_)
  exact reports_ok hr _

theorem FillHandler_reports (args : Args) (env : Env) (st : State) :
    Reports "rod_fill" args env st (FillHandler args env st) := by
  unfold FillHandler
  refine reports_ensure ⟨_, fun e => rfl,
    describes_fixed (by simp [fixedDescriptions]) rfl (by simp) (by simp) (by simp)⟩
    (fun hr => ?_)
  refine reports_assertString hr _ _ (fun selector hsel => ?_)
  refine reports_assertString hr _ _ (fun value hvalue => ?_)
  refine reports_call_check hr (by simp [Call.isWait]) ⟨_, fun e => rfl,
    describes_target rfl (append_ne_empty _ _ (by decide))
      (mentions_append _ _ _ (mentions_right _ _)) (by simp)⟩
    (fun hr => ?_)
  refine reports_call_check hr (by simp [Call.isWait]) ⟨_, fun e => rfl,
    describes_target rfl (append_ne_empty _ _ (by decide))
      (mentions_append _ _ _ (mentions_right _ _)) (by simp)⟩
    (fun hr => ?_)
  exact reports_ok hr _

theorem DragHandler_reports (args : Args) (env : Env) (st : State) :
    Reports "rod_drag" args env st (DragHandler args env st) := by
  unfold DragHandler
  refine reports_ensure ⟨_, fun e => rfl,
    describes_fixed (by simp [fixedDescriptions]) rfl (by simp) (by simp) (by simp)⟩
    (fun hr => ?_)
  refine reports_assertString hr _ _ (fun sourceSelector hsrc => ?_)
  refine reports_assertString hr _ _ (fun targetSelector htgt => ?_)
  refine reports_call_check hr (by simp [Call.isWait]) ⟨_, fun e => rfl,
    describes_target rfl (append_ne_empty _ _ (by decide))
      (mentions_append _ _ _ (mentions_right _ _)) (by simp)⟩
    (fun hr => ?_)
  refine reports_call_check hr (by simp [Call.isWait]) ⟨_, fun e => rfl,
    describes_target rfl (append_ne_empty _ _ (by decide))
      (mentions_append _ _ _ (mentions_right _ _)) (by simp)⟩
    (fun hr => ?_)
  refine reports_call_check hr (by simp [Call.isWait]) ⟨_, fun e => rfl,
    describes_target rfl (append_ne_empty _ _ (by decide))
      (mentions_append _ _ _ (mentions_right _ _)) (by simp)⟩
    (fun hr => ?_)
  rw [shapeBox_bind]
  refine reports_call_check hr (by simp [Call.isWait]) ⟨_, fun e => rfl,
    describes_target rfl (append_ne_empty _ _ (by decide))
      (mentions_append _ _ _ (mentions_right _ _)) (by simp)⟩
    (fun hr => ?_)
  rw [shapeBox_bind, getEnv_bind]
  refine reports_call_check hr (by simp [Call.isWait]) ⟨_, fun e => rfl,
    describes_fixed (by simp [fixedDescriptions]) rfl (by simp) (by simp) (by simp)⟩
    (fun hr => ?_)
  refine reports_call_check hr (by simp [Call.isWait]) ⟨_, fun e => rfl,
    describes_fixed (by simp [fixedDescriptions]) rfl (by simp) (by simp) (by simp)⟩
    (fun hr => ?_)
  refine reports_call_check hr (by simp [Call.isWait]) ⟨_, fun e => rfl,
    describes_fixed (by simp [fixedDescriptions]) rfl (by simp) (by simp) (by simp)⟩
    (fun hr => ?_)
  refine reports_call_check hr (by simp [Call.isWait]) ⟨_, fun e => rfl,
    describes_fixed (by simp [fixedDescriptions]) rfl (by simp) (by simp) (by simp)⟩
    (fun hr => ?_)
  exact reports_ok hr _

theorem SelectorHandler_reports (args : Args) (env : Env) (st : State) :
    Reports "rod_selector" args env st (SelectorHandler args env st) := by
  unfold SelectorHandler
  refine reports_ensure ⟨_, fun e => rfl,
    describes_fixed (by simp [fixedDescriptions]) rfl (by simp) (by simp) (by simp)⟩
    (fun hr => ?_)
  refine reports_assertString hr _ _ (fun selector hsel => ?_)
  refine reports_assertString hr _ _ (fun value hvalue => ?_)
  refine reports_call_check hr (by simp [Call.isWait]) ⟨_, fun e => rfl,
    describes_target rfl (append_ne_empty _ _ (by decide))
      (mentions_append _ _ _ (mentions_right _ _)) (by simp)⟩
    (fun hr => ?_)
  refine reports_call_check hr (by simp [Call.isWait]) ⟨_, fun e => rfl,
    describes_select_option args selector value _ hvalue⟩
    (fun hr => ?_)
  exact reports_ok hr _

theorem WaitHandler_reports (args : Args) (env : Env) (st : State) :
    Reports "rod_wait" args env st (WaitHandler args env st) := by
  unfold WaitHandler
  refine reports_assertFloat (ready_start env st) _ _ (fun waitTime => ?_)
  rw [getEnv_bind, sleep_bind]
  have hr : Ready env st { st with sleeps := st.sleeps ++
      [wrap64 (toInt64 env (if waitTime > 10 then 10 else waitTime) * second)] } [] :=
    ⟨by simp, trivial⟩
  exact reports_ok hr _

theorem ScreenshotHandler_reports (args : Args) (env : Env) (st : State) :
    Reports "rod_screenshot" args env st (ScreenshotHandler args env st) := by
  unfold ScreenshotHandler
  refine reports_ensure ⟨_, fun e => rfl,
    describes_fixed (by simp [fixedDescriptions]) rfl (by simp) (by simp) (by simp)⟩
    (fun hr => ?_)
  refine reports_assertString hr _ _ (fun name hname => ?_)
  by_cases hb : ((commaOkString (args.lookup "selector")).2 &&
      (commaOkString (args.lookup "selector")).1 != "") = true
  · rw [if_pos hb]
    refine reports_call_check hr (by simp [Call.isWait]) ⟨_, fun e => rfl,
      describes_target rfl (append_ne_empty _ _ (by decide))
        (mentions_append _ _ _ (mentions_right _ _)) (by simp)⟩
      (fun hr => ?_)
    refine reports_call_check hr (by simp [Call.isWait]) ⟨_, fun e => rfl,
      describes_target rfl (append_ne_empty _ _ (by decide))
        (mentions_append _ _ _ (mentions_right _ _)) (by simp)⟩
      (fun hr => ?_)
    exact reports_ok hr _
  · rw [if_neg hb, getEnv_bind]
    refine reports_call_check hr (by simp [Call.isWait]) ⟨_, fun e => rfl,
      describes_fixed (by simp [fixedDescriptions]) rfl (by simp) (by simp) (by simp)⟩
      (fun hr => ?_)
    refine reports_call_check hr (by simp [Call.isWait]) ⟨_, fun e => rfl,
      describes_fixed (by simp [fixedDescriptions]) rfl (by simp) (by simp) (by simp)⟩
      (fun hr => ?_)
    exact reports_ok hr _

theorem PdfHandler_reports (args : Args) (env : Env) (st : State) :
    Reports "rod_pdf" args env st (PdfHandler args env st) := by
  unfold PdfHandler
  refine reports_ensure ⟨_, fun e => rfl,
    describes_fixed (by simp [fixedDescriptions]) rfl (by simp) (by simp) (by simp)⟩
    (fun hr => ?_)
  refine reports_assertString hr _ _ (fun filePath hpath => ?_)
  refine reports_assertString hr _ _ (fun fileName hfile => ?_)
  refine reports_call_check hr (by simp [Call.isWait]) ⟨_, fun e => rfl,
    describes_fixed (by simp [fixedDescriptions]) rfl (by simp) (by simp) (by simp)⟩
    (fun hr => ?_)
  exact reports_ok hr _

theorem CloseBrowserHandler_reports (args : Args) (env : Env) (st : State) :
    Reports "rod_close" args env st (CloseBrowserHandler args env st) := by
  unfold CloseBrowserHandler
  rw [GetBrowser_bind]
  have hr : Ready env st { st with trace := st.trace ++ [.getBrowser] } [.getBrowser] :=
    ready_snoc .getBrowser (ready_start env st) (Or.inr rfl)
  by_cases hb : st.session.browser = none
  · rw [if_pos hb]
    exact ⟨[.getBrowser], rfl, Or.inr (Or.inl ⟨rfl, rfl, hb⟩)⟩
  · rw [if_neg hb]
    refine reports_call_check hr (by simp [Call.isWait]) ⟨_, fun e => rfl,
      describes_fixed (by simp [fixedDescriptions]) rfl (by simp) (by simp) (by simp)⟩
      (fun hr => ?_)
    exact reports_ok hr _

theorem SnapshotHandler_reports (args : Args) (env : Env) (st : State) :
    Reports "rod_snapshot" args env st (SnapshotHandler args env st) := by
  unfold SnapshotHandler
  refine reports_ensure ⟨_, fun e => rfl,
    describes_fixed (by simp [fixedDescriptions]) rfl (by simp) (by simp) (by simp)⟩
    (fun hr => ?_)
  refine reports_call_check hr (by simp [Call.isWait]) ⟨_, fun e => rfl,
    describes_fixed (by simp [fixedDescriptions]) rfl (by simp) (by simp) (by simp)⟩
    (fun hr => ?_)
  rw [evalValue_bind]
  exact reports_ok hr _

theorem EvaluateHandler_reports (args : Args) (env : Env) (st : State) :
    Reports "rod_evaluate" args env st (EvaluateHandler args env st) := by
  unfold EvaluateHandler
  refine reports_ensure ⟨_, fun e => rfl,
    describes_fixed (by simp [fixedDescriptions]) rfl (by simp) (by simp) (by simp)⟩
    (fun hr => ?_)
  refine reports_assertString hr _ _ (fun script hscript => ?_)
  refine reports_call_check hr (by simp [Call.isWait]) ⟨_, fun e => rfl,
    describes_fixed (by simp [fixedDescriptions]) rfl (by simp) (by simp) (by simp)⟩
    (fun hr => ?_)
  rw [evalValue_bind]
  exact reports_ok hr _

theorem SelectElementHandler_reports (args : Args) (env : Env) (st : State) :
    Reports "rod_select_element" args env st (SelectElementHandler args env st) := by
  unfold SelectElementHandler
  refine reports_ensure ⟨_, fun e => rfl,
    describes_fixed (by simp [fixedDescriptions]) rfl (by simp) (by simp) (by simp)⟩
    (fun hr => ?_)
  refine reports_assertString hr _ _ (fun selector hsel => ?_)
  refine reports_call_check hr (by simp [Call.isWait]) ⟨_, fun e => rfl,
    describes_select_element args selector _ hsel⟩
    (fun hr => ?_)
  rw [evalValue_bind]
  exact reports_ok hr _

theorem GetTextHandler_reports (args : Args) (env : Env) (st : State) :
    Reports "rod_get_text" args env st (GetTextHandler args env st) := by
  unfold GetTextHandler
  refine reports_ensure ⟨_, fun e => rfl,
    describes_fixed (by simp [fixedDescriptions]) rfl (by simp) (by simp) (by simp)⟩
    (fun hr => ?_)
  refine reports_call_check hr (by simp [Call.isWait]) ⟨_, fun e => rfl,
    describes_fixed (by simp [fixedDescriptions]) rfl (by simp) (by simp) (by simp)⟩
    (fun hr => ?_)
  rw [evalValue_bind]
  by_cases hs : (if (commaOkString (args.lookup "selector")).2 = true
      then (commaOkString (args.lookup "selector")).1 else "") = ""
  · rw [if_pos hs]
    exact reports_ok hr _
  · rw [if_neg hs]
    exact reports_ok hr _

theorem issued_of_trace {α : Type} (m : M α) (env : Env) (st : State)
    (calls : List Call) (h : (m env st).2.trace = st.trace ++ calls) :
    issued m env st = calls := by
  simp [issued, h]

theorem snoc_eq_mid {α : Type} (hist hist2 rest : List α) (c c2 : α)
    (h : hist ++ c :: rest = hist2 ++ [c2]) :
    (rest = [] ∧ hist = hist2 ∧ c = c2) ∨
      ∃ rest2, hist2 = hist ++ c :: rest2 := by
  rcases List.eq_nil_or_concat rest with hr | ⟨rest2, x, hr⟩
  · subst hr
    have h2 := List.append_inj' h rfl
    refine Or.inl ⟨rfl, h2.1, ?_⟩
    simpa using h2.2
  · subst hr
    right
    refine ⟨rest2, ?_⟩
    have h3 : (hist ++ c :: rest2) ++ [x] = hist2 ++ [c2] := by
      simpa using h
    exact (List.append_inj' h3 rfl).1.symm

theorem reports_failed_call {name : String} {args : Args} {env : Env} {st : State}
    {r : Outcome String × State} (hrep : Reports name args env st r)
    (calls hist rest : List Call) (c : Call) (cause : String)
    (htrace : r.2.trace = st.trace ++ calls)
    (hcalls : calls = hist ++ c :: rest) (hwait : c.isWait = false)
    (hfail : callError env st (st.trace ++ hist) c = some cause) :
    rest = [] ∧ ∃ pre, r.1 = .err (pre ++ cause) ∧ DescribesFailure name args c pre := by
  obtain ⟨calls2, htrace2, hmatch⟩ := hrep
  have hsame : calls2 = calls := by
    have h := htrace2.symm.trans htrace
    exact List.append_cancel_left h
  subst hsame
  have hmid : ∀ base : List Call, AllSucceed env st st.trace base →
      ∀ tail, base = hist ++ c :: tail → False := by
    intro base hall tail hb
    rw [hb] at hall
    rcases allSucceed_mid env st c tail hist st.trace hall with hw | hn
    · rw [hwait] at hw
      cases hw
    · rw [hfail] at hn
      cases hn
  rcases r with ⟨o, st2⟩
  cases o with
  | ok x => exact absurd (hmid _ hmatch rest hcalls) id
  | panic => exact absurd (hmid _ hmatch rest hcalls) id
  | err msg =>
    rcases hmatch with ⟨_, hnil⟩ | ⟨_, hone, _⟩ | ⟨hist2, c2, cause2, pre, hc2, hall, _, hfail2,
      hmsg, hdesc⟩
    · rw [hcalls] at hnil
      simp at hnil
    · rw [hcalls] at hone
      have hlen := congrArg List.length hone
      have hhist : hist = [] := by
        cases hist with
        | nil => rfl
        | cons a as => simp at hlen
      subst hhist
      simp only [List.nil_append, List.cons.injEq] at hone
      rw [hone.1] at hfail
      cases hfail
    · rw [hcalls] at hc2
      rcases snoc_eq_mid hist hist2 rest c c2 hc2 with ⟨hrest, hh, hc⟩ | ⟨rest2, hh⟩
      · subst hh
        subst hc
        rw [hfail] at hfail2
        cases hfail2
        exact ⟨hrest, pre, by rw [hmsg], hdesc⟩
      · exact absurd (hmid hist2 hall rest2 hh) id

theorem reports_error {name : String} {args : Args} {env : Env} {st : State}
    {r : Outcome String × State} (hrep : Reports name args env st r)
    (calls : List Call) (htrace : r.2.trace = st.trace ++ calls)
    (msg : String) (herr : r.1 = .err msg) :
    (msg = "invalid URL" ∧ calls = []) ∨
    (msg = "browser not launched" ∧ calls = [.getBrowser] ∧ st.session.browser = none) ∨
    ∃ hist c cause pre, calls = hist ++ [c] ∧
      callError env st (st.trace ++ hist) c = some cause ∧ msg = pre ++ cause ∧
      DescribesFailure name args c pre := by
  obtain ⟨calls2, htrace2, hmatch⟩ := hrep
  have hsame : calls2 = calls := by
    have h := htrace2.symm.trans htrace
    exact List.append_cancel_left h
  subst hsame
  rcases r with ⟨o, st2⟩
  simp only at herr
  subst herr
  rcases hmatch with h1 | h2 | ⟨hist, c, cause, pre, hc, _, _, hfail, hmsg, hdesc⟩
  · exact Or.inl h1
  · exact Or.inr (Or.inl h2)
  · exact Or.inr (Or.inr ⟨hist, c, cause, pre, hc, hfail, hmsg, hdesc⟩)

theorem registered_reports (name : String) (h : ToolHandler) (args : Args) (env : Env)
    (st : State) (hh : (name, h) ∈ CommonToolHandlers) :
    Reports name args env st (h args env st) := by
  simp only [CommonToolHandlers, List.mem_cons, List.mem_singleton, List.not_mem_nil,
    or_false, Prod.mk.injEq] at hh
  rcases hh with e | e | e | e | e | e | e | e | e | e | e | e | e | e | e | e | e
  all_goals obtain ⟨hname, hhandler⟩ := e
  all_goals subst hname
  all_goals subst hhandler
  · exact NavigationHandler_reports args env st
  · exact GoBackHandler_reports args env st
  · exact GoForwardHandler_reports args env st
  · exact ReLoadHandler_reports args env st
  · exact PressKeyHandler_reports args env st
  · exact ClickHandler_reports args env st
  · exact FillHandler_reports args env st
  · exact SelectorHandler_reports args env st
  · exact DragHandler_reports args env st
  · exact ScreenshotHandler_reports args env st
  · exact PdfHandler_reports args env st
  · exact WaitHandler_reports args env st
  · exact SnapshotHandler_reports args env st
  · exact CloseBrowserHandler_reports args env st
  · exact EvaluateHandler_reports args env st
  · exact SelectElementHandler_reports args env st
  · exact GetTextHandler_reports args env st

/-- C5, the counterexample: when the first mouse move of a drag from `#a` to `#b`
fails, the error text names neither selector. -/
theorem drag_move_error_names_no_selector :
    (DragHandler dragArgs moveFailsEnv freshState).1
      = .err "Failed to move mouse to source element: timeout" ∧
    ¬ Mentions "Failed to move mouse to source element: timeout" "#a" ∧
    ¬ Mentions "Failed to move mouse to source element: timeout" "#b" := by
  decide

/-- C5, amended. Take a registered command `name` with handler `h`, any argument bag
and any driver.  First: every failed call of the run, other than a `WaitDOMStable`
(whose result the handlers discard), is the last call of the run, and the handler
returns an error text made of a description of the failure followed by the cause's
message.  Second: every error the handler returns is "invalid URL" with no call made,
or "browser not launched" with `GetBrowser` the only call and no browser in the
session, or such a text for the failed last call.  The description is never empty; it
names the target the failed call carries (the url of a navigation, the inserted text,
the selector of an element lookup or of an operation on an element), the url when the
`EnsurePage` of navigate failed, the key when the `Keyboard.Press` of press_key
failed, the selector when the script of select_element failed and the value too when
the script of the select command failed; for every other failure it is one of the
twenty fixed descriptions, which name no argument. -/
theorem error_text_ends_with_cause (name : String) (h : ToolHandler) (args : Args)
    (env : Env) (st : State)
    (hh : (name, h) ∈ CommonToolHandlers) :
    (∀ (hist : List Call) (c : Call) (rest : List Call) (cause : String),
      issued (h args) env st = hist ++ c :: rest →
      (∀ d x, c ≠ .waitDOMStable d x) →
      callError env st (st.trace ++ hist) c = some cause →
      rest = [] ∧
        ∃ pre, (h args env st).1 = .err (pre ++ cause) ∧
          DescribesFailure name args c pre) ∧
    (∀ msg : String, (h args env st).1 = .err msg →
      (msg = "invalid URL" ∧ issued (h args) env st = []) ∨
      (msg = "browser not launched" ∧ issued (h args) env st = [.getBrowser] ∧
        st.session.browser = none) ∨
      ∃ hist c cause pre, issued (h args) env st = hist ++ [c] ∧
        callError env st (st.trace ++ hist) c = some cause ∧ msg = pre ++ cause ∧
        DescribesFailure name args c pre) := by
  have hrep := registered_reports name h args env st hh
  obtain ⟨calls, htrace, _⟩ := id hrep
  have hissued : issued (h args) env st = calls := issued_of_trace _ env st calls htrace
  rw [hissued]
  refine ⟨?_, ?_⟩
  · intro hist c rest cause hcalls hwait hfail
    have hw : c.isWait = false := by
      cases c <;> first | rfl | exact absurd rfl (hwait _ _)
    exact reports_failed_call hrep calls hist rest c cause htrace hcalls hw hfail
  · intro msg herr
    exact reports_error hrep calls htrace msg herr

/-- Witness of C5, amended: in a click on `#go` whose element lookup fails with
"not found", the lookup is the last call and the error text, "Failed to find element
#go: not found", is a description that names `#go`, followed by "not found". -/
theorem error_text_ends_with_cause_witness :
    (([] : List Call) = [] ∧
      ∃ pre, (ClickHandler [("selector", .str "#go")] lookupFailsEnv freshState).1
          = .err (pre ++ "not found") ∧
        DescribesFailure "rod_click" [("selector", .str "#go")] (.element "#go") pre) ∧
    (ClickHandler [("selector", .str "#go")] lookupFailsEnv freshState).1
      = .err "Failed to find element #go: not found" :=
  ⟨(error_text_ends_with_cause "rod_click" ClickHandler [("selector", .str "#go")]
    lookupFailsEnv freshState (by simp [CommonToolHandlers])).1 [.ensurePage]
    (.element "#go") [] "not found" (by decide) (by simp) (by decide), by decide⟩

/-! ## The registry -/

/-- C13. The registry is consistent: `CommonTools` declares 17 tools whose names are
pairwise distinct; a name is the name of a declared tool exactly when it is a key of
`CommonToolHandlers`; the keys are pairwise distinct, so every declared tool has
exactly one handler entry and no entry stands under an undeclared name. -/
theorem registry_consistent :
    CommonTools.length = 17 ∧
    (CommonTools.map Tool.name).Nodup ∧
    (∀ n : String, n ∈ CommonTools.map Tool.name ↔ n ∈ CommonToolHandlers.map Prod.fst) ∧
    (CommonToolHandlers.map Prod.fst).Nodup ∧
    (∀ t ∈ CommonTools,
      (CommonToolHandlers.filter (fun e => e.1 = t.name)).length = 1) ∧
    (∀ e ∈ CommonToolHandlers, ∃ t ∈ CommonTools, t.name = e.1) := by
  have hnames : CommonTools.map Tool.name = CommonToolHandlers.map Prod.fst := by decide
  have hnodup : (CommonTools.map Tool.name).Nodup := by decide
  refine ⟨rfl, hnodup, ?_, ?_, ?_, ?_⟩
  · intro n
    rw [hnames]
  · rw [← hnames]
    exact hnodup
  · decide
  · intro e he
    have hmem : e.1 ∈ CommonTools.map Tool.name := by
      rw [hnames]
      exact List.mem_map_of_mem Prod.fst he
    obtain ⟨t, ht, hte⟩ := List.mem_map.1 hmem
    exact ⟨t, ht, hte⟩

/-- Witness of C13 for the tool `Click`. -/
theorem registry_consistent_witness :
    (CommonToolHandlers.filter (fun e => e.1 = Click.name)).length = 1 :=
  registry_consistent.2.2.2.2.1 Click (by decide)

/-! ## Wait, fractional times -/

/-- C14, the code at the failing input: with `time = 0.5` the wait handler passes the
duration 0 to `time.Sleep` and answers "Waited for 0.5 seconds". -/
theorem wait_half_second_sleeps_zero :
    WaitHandler [("time", .num half)] okEnv freshState
      = (.ok "Waited for 0.5 seconds", { freshState with sleeps := [0] }) ∧
    slept (WaitHandler [("time", .num half)]) okEnv freshState = [0] := by
  decide

/-! ## Scripts sent to the driver -/

theorem commaOkBool_default (v : Option Value) (d : Bool) :
    (if (commaOkBool v).2 = true then (commaOkBool v).1 else d) =
      (match v with
      | some (.bool b) => b
      | _ => d) := by
  cases v with
  | none => rfl
  | some x => cases x <;> rfl

/-- C11. For every selector and every choice of the optional flags, once `EnsurePage`
has returned a page the select-element handler sends the script below.  The assignment
of `result.text` stands under `if (T)`, where `T` is the text `false` when `get_text`
is the boolean false and the text `true` otherwise (also when it is absent); the
assignment of `result.attributes` stands under `if (A)`, where `A` is the text `true`
when `get_attributes` is the boolean true and the text `false` otherwise (also when it
is absent); the block that assigns `result.rect` follows both, under neither. -/
theorem select_element_script_guards (args : Args) (env : Env) (st : State)
    (selector : String)
    (hsel : args.lookup "selector" = some (.str selector))
    (hpage : ensurePageError env st = none) :
    ∀ textGuard attributesGuard : String,
      textGuard = (match args.lookup "get_text" with
        | some (.bool false) => "false"
        | _ => "true") →
      attributesGuard = (match args.lookup "get_attributes" with
        | some (.bool true) => "true"
        | _ => "false") →
      issued (SelectElementHandler args) env st = [.ensurePage, .pageEval (
        "() => \x7b\n"
        ++ "\t\t\t\tconst elements = Array.from(document.querySelectorAll(\""
        ++ selector
        ++ "\"));\n"
        ++ "\t\t\t\treturn elements.map(el => \x7b\n"
        ++ "\t\t\t\t\tconst result = \x7b\n"
        ++ "\t\t\t\t\t\ttagName: el.tagName.toLowerCase(),\n"
        ++ "\t\t\t\t\t\tid: el.id || \"\",\n"
        ++ "\t\t\t\t\t\tclassName: el.className || \"\"\n"
        ++ "\t\t\t\t\t\x7d;\n"
        ++ "\t\t\t\t\t\n"
        ++ ("\t\t\t\t\tif ("
            ++ textGuard
            ++ ") \x7b\n"
            ++ "\t\t\t\t\t\tresult.text = el.textContent || \"\";\n"
            ++ "\t\t\t\t\t\x7d\n")
        ++ "\t\t\t\t\t\n"
        ++ ("\t\t\t\t\tif ("
            ++ attributesGuard
            ++ ") \x7b\n"
            ++ "\t\t\t\t\t\tresult.attributes = \x7b\x7d;\n"
            ++ "\t\t\t\t\t\tArray.from(el.attributes).forEach(attr => \x7b\n"
            ++ "\t\t\t\t\t\t\tresult.attributes[attr.name] = attr.value;\n"
            ++ "\t\t\t\t\t\t\x7d);\n"
            ++ "\t\t\t\t\t\x7d\n")
        ++ "\t\t\t\t\t\n"
        ++ ("\t\t\t\t\tif (el.tagName === \"INPUT\" || el.tagName === \"TEXTAREA\" || el.tagName === \"SELECT\") \x7b\n"
            ++ "\t\t\t\t\t\tresult.value = el.value || \"\";\n"
            ++ "\t\t\t\t\t\x7d\n")
        ++ "\t\t\t\t\t\n"
        ++ ("\t\t\t\t\t// 计算元素的位置和大小\n"
            ++ "\t\t\t\t\tconst rect = el.getBoundingClientRect();\n"
            ++ "\t\t\t\t\tresult.rect = \x7b\n"
            ++ "\t\t\t\t\t\tx: rect.x,\n"
            ++ "\t\t\t\t\t\ty: rect.y,\n"
            ++ "\t\t\t\t\t\twidth: rect.width,\n"
            ++ "\t\t\t\t\t\theight: rect.height\n"
            ++ "\t\t\t\t\t\x7d;\n")
        ++ "\t\t\t\t\t\n"
        ++ "\t\t\t\t\treturn result;\n"
        ++ "\t\t\t\t\x7d);\n"
        ++ "\t\t\t\x7d")] := by
  intro textGuard attributesGuard hT hA
  have he : (ensurePageResult env st).2 = none := hpage
  have hT2 : fmtBool (if (commaOkBool (args.lookup "get_text")).2 = true
      then (commaOkBool (args.lookup "get_text")).1 else true) = textGuard := by
    rw [hT]
    cases args.lookup "get_text" with
    | none => rfl
    | some v =>
      cases v with
      | bool b => cases b <;> rfl
      | null => rfl
      | num x => rfl
      | str t => rfl
      | composite => rfl
  have hA2 : fmtBool (if (commaOkBool (args.lookup "get_attributes")).2 = true
      then (commaOkBool (args.lookup "get_attributes")).1 else false)
        = attributesGuard := by
    rw [hA]
    cases args.lookup "get_attributes" with
    | none => rfl
    | some v =>
      cases v with
      | bool b => cases b <;> rfl
      | null => rfl
      | num x => rfl
      | str t => rfl
      | composite => rfl
  have hrun : issued (SelectElementHandler args) env st =
      [.ensurePage, .pageEval (selectElementScript selector
        (if (commaOkBool (args.lookup "get_text")).2 = true
          then (commaOkBool (args.lookup "get_text")).1 else true)
        (if (commaOkBool (args.lookup "get_attributes")).2 = true
          then (commaOkBool (args.lookup "get_attributes")).1 else false))] := by
    simp only [issued, SelectElementHandler, EnsurePage_bind, he, check_none_bind, hsel,
      assertString_str_bind, call_bind, EnsurePage_trace]
    cases env.fail (st.trace ++ [.ensurePage]) (.pageEval (selectElementScript selector
      (if (commaOkBool (args.lookup "get_text")).2 = true
        then (commaOkBool (args.lookup "get_text")).1 else true)
      (if (commaOkBool (args.lookup "get_attributes")).2 = true
        then (commaOkBool (args.lookup "get_attributes")).1 else false))) <;> simp
  rw [hrun]
  simp only [selectElementScript, hT2, hA2, String.append_assoc]

set_option maxRecDepth 100000 in
/-- Witness of C11: a request that gives no flag sends `if (true)` before the text and
`if (false)` before the attributes; a request with `get_text` false and
`get_attributes` true sends `if (false)` before the text and `if (true)` before the
attributes. -/
theorem select_element_script_guards_witness :
    (∃ script : String,
      issued (SelectElementHandler [("selector", .str "a")]) okEnv freshState
        = [.ensurePage, .pageEval script] ∧
      Mentions script "if (true) \x7b\n\t\t\t\t\t\tresult.text = " ∧
      Mentions script "if (false) \x7b\n\t\t\t\t\t\tresult.attributes = ") ∧
    (∃ script : String,
      issued (SelectElementHandler [("selector", .str "a"), ("get_text", .bool false),
        ("get_attributes", .bool true)]) okEnv freshState
        = [.ensurePage, .pageEval script] ∧
      Mentions script "if (false) \x7b\n\t\t\t\t\t\tresult.text = " ∧
      Mentions script "if (true) \x7b\n\t\t\t\t\t\tresult.attributes = ") :=
  ⟨⟨_, select_element_script_guards [("selector", .str "a")] okEnv freshState "a" rfl
      (by decide) "true" "false" rfl rfl, by decide, by decide⟩,
    ⟨_, select_element_script_guards [("selector", .str "a"), ("get_text", .bool false),
      ("get_attributes", .bool true)] okEnv freshState "a" rfl (by decide) "false" "true"
      rfl rfl, by decide, by decide⟩⟩

set_option maxRecDepth 100000 in
/-- C12, the counterexample: for the selector `p` the script the get-text handler
sends joins the texts with the separator `"\n\n"`, two newlines, and not with
`"\n"`. -/
theorem get_text_joins_with_blank_line :
    issued (GetTextHandler [("selector", .str "p")]) okEnv freshState
      = [.ensurePage, .pageEval (elementTextScript "p" false true)] ∧
    Mentions (elementTextScript "p" false true) ".join(\"\\n\\n\")" ∧
    ¬ Mentions (elementTextScript "p" false true) ".join(\"\\n\")" := by
  decide

/-- C12, amended. Once `EnsurePage` has returned a page the get-text handler sends
one script.  When the selector is absent, not a string or empty, it is the whole-page
script below, in which only the literals of `include_hidden` (`false` when no boolean
is given) and `trim` (`true` when no boolean is given) vary.  When the selector is a
non-empty string `s`, it is the per-element script below: `s` stands as it is inside
`querySelectorAll("...")` and inside the not-found text, and the texts of the elements
are joined with `"\n\n"`, two newlines. -/
theorem get_text_script (args : Args) (env : Env) (st : State)
    (hpage : ensurePageError env st = none) :
    ∀ trim includeHidden : Bool,
      trim = (match args.lookup "trim" with
        | some (.bool b) => b
        | _ => true) →
      includeHidden = (match args.lookup "include_hidden" with
        | some (.bool b) => b
        | _ => false) →
      ((∀ s : String, args.lookup "selector" = some (.str s) → s = "") →
        issued (GetTextHandler args) env st = [.ensurePage, .pageEval (
          "() => \x7b\n"
          ++ "\t\t\t\t\tconst getVisibleText = (node) => \x7b\n"
          ++ "\t\t\t\t\t\tif (node.nodeType === Node.TEXT_NODE) \x7b\n"
          ++ "\t\t\t\t\t\t\tconst text = node.textContent;\n"
          ++ "\t\t\t\t\t\t\tconst parentStyle = window.getComputedStyle(node.parentElement);\n"
          ++ "\t\t\t\t\t\t\tif ("
          ++ fmtBool includeHidden
          ++ " || (parentStyle.display !== \x27none\x27 && parentStyle.visibility !== \x27hidden\x27)) \x7b\n"
          ++ "\t\t\t\t\t\t\t\treturn "
          ++ fmtBool trim
          ++ " ? text.trim() : text;\n"
          ++ "\t\t\t\t\t\t\t\x7d\n"
          ++ "\t\t\t\t\t\t\treturn \x27\x27;\n"
          ++ "\t\t\t\t\t\t\x7d\n"
          ++ "\t\t\t\t\t\t\n"
          ++ "\t\t\t\t\t\tif (node.nodeType !== Node.ELEMENT_NODE) \x7b\n"
          ++ "\t\t\t\t\t\t\treturn \x27\x27;\n"
          ++ "\t\t\t\t\t\t\x7d\n"
          ++ "\t\t\t\t\t\t\n"
          ++ "\t\t\t\t\t\tconst style = window.getComputedStyle(node);\n"
          ++ "\t\t\t\t\t\tif (!"
          ++ fmtBool includeHidden
          ++ " && (style.display === \x27none\x27 || style.visibility === \x27hidden\x27)) \x7b\n"
          ++ "\t\t\t\t\t\t\treturn \x27\x27;\n"
          ++ "\t\t\t\t\t\t\x7d\n"
          ++ "\t\t\t\t\t\t\n"
          ++ "\t\t\t\t\t\tlet text = \x27\x27;\n"
          ++ "\t\t\t\t\t\tfor (const child of node.childNodes) \x7b\n"
          ++ "\t\t\t\t\t\t\ttext += getVisibleText(child);\n"
          ++ "\t\t\t\t\t\t\x7d\n"
          ++ "\t\t\t\t\t\treturn "
          ++ fmtBool trim
          ++ " ? text.trim() : text;\n"
          ++ "\t\t\t\t\t\x7d;\n"
          ++ "\t\t\t\t\t\n"
          ++ "\t\t\t\t\treturn getVisibleText(document.body);\n"
          ++ "\t\t\t\t\x7d")]) ∧
      (∀ s : String, args.lookup "selector" = some (.str s) → s ≠ "" →
        issued (GetTextHandler args) env st = [.ensurePage, .pageEval (
          "() => \x7b\n"
          ++ "\t\t\t\t\tconst elements = document.querySelectorAll(\""
          ++ s
          ++ "\");\n"
          ++ "\t\t\t\t\tif (elements.length === 0) \x7b\n"
          ++ "\t\t\t\t\t\treturn \"No elements found matching selector: "
          ++ s
          ++ "\";\n"
          ++ "\t\t\t\t\t\x7d\n"
          ++ "\t\t\t\t\t\n"
          ++ "\t\t\t\t\treturn Array.from(elements).map(el => \x7b\n"
          ++ "\t\t\t\t\t\tif (!"
          ++ fmtBool includeHidden
          ++ " && (window.getComputedStyle(el).display === \x27none\x27 || \n"
          ++ "\t\t\t\t\t\t\twindow.getComputedStyle(el).visibility === \x27hidden\x27)) \x7b\n"
          ++ "\t\t\t\t\t\t\treturn \"[Hidden element]\";\n"
          ++ "\t\t\t\t\t\t\x7d\n"
          ++ "\t\t\t\t\t\t\n"
          ++ "\t\t\t\t\t\tconst text = el.textContent || \"\";\n"
          ++ "\t\t\t\t\t\treturn "
          ++ fmtBool trim
          ++ " ? text.trim() : text;\n"
          ++ "\t\t\t\t\t\x7d).join(\"\\n\\n\");\n"
          ++ "\t\t\t\t\x7d")]) := by
  intro trim includeHidden hT hI
  have he : (ensurePageResult env st).2 = none := hpage
  have hT2 := commaOkBool_default (args.lookup "trim") true
  have hI2 := commaOkBool_default (args.lookup "include_hidden") false
  rw [← hT] at hT2
  rw [← hI] at hI2
  have hrun : ∀ script : String,
      (if (if (commaOkString (args.lookup "selector")).2 = true
          then (commaOkString (args.lookup "selector")).1 else "") = ""
        then pageTextScript includeHidden trim
        else elementTextScript (if (commaOkString (args.lookup "selector")).2 = true
          then (commaOkString (args.lookup "selector")).1 else "") includeHidden trim)
        = script →
      issued (GetTextHandler args) env st = [.ensurePage, .pageEval script] := by
    intro script hscript
    simp only [issued, GetTextHandler, EnsurePage_bind, he, check_none_bind, hT2, hI2,
      hscript, call_bind, EnsurePage_trace]
    cases env.fail (st.trace ++ [.ensurePage]) (.pageEval script) with
    | some e => simp
    | none =>
      simp only [check_none_bind, evalValue_bind]
      split_ifs <;> simp
  refine ⟨?_, ?_⟩
  · intro hsel
    have hempty : (if (commaOkString (args.lookup "selector")).2 = true
        then (commaOkString (args.lookup "selector")).1 else "") = "" := by
      cases hl : args.lookup "selector" with
      | none => rfl
      | some v =>
        cases v with
        | str s => simp [commaOkString, hsel s hl]
        | null => rfl
        | bool b => rfl
        | num x => rfl
        | composite => rfl
    rw [hrun (pageTextScript includeHidden trim) (by rw [if_pos hempty])]
    simp only [pageTextScript, String.append_assoc]
  · intro s hsel hne
    have hs : (if (commaOkString (args.lookup "selector")).2 = true
        then (commaOkString (args.lookup "selector")).1 else "") = s := by
      simp [hsel, commaOkString]
    rw [hrun (elementTextScript s includeHidden trim) (by rw [hs, if_neg hne])]
    simp only [elementTextScript, String.append_assoc]

set_option maxRecDepth 100000 in
/-- Witness of C12, amended: the per-element script for the selector `p`. -/
theorem get_text_script_witness :
    ∃ script : String,
      issued (GetTextHandler [("selector", .str "p")]) okEnv freshState
        = [.ensurePage, .pageEval script] ∧
      Mentions script "document.querySelectorAll(\"p\")" ∧
      Mentions script "No elements found matching selector: p\"" :=
  ⟨_, (get_text_script [("selector", .str "p")] okEnv freshState (by decide) true false
    rfl rfl).2 "p" rfl (by decide), by decide, by decide⟩

/-! ## Wait, whole seconds -/

/-- A time between 0 and 10 makes the wait handler sleep the whole seconds of the
time, its fraction discarded, while the answer states the time to one decimal. -/
theorem wait_sleeps_whole_seconds (args : Args) (env : Env) (st : State) (t : ℚ)
    (ht : args.lookup "time" = some (.num t)) (h0 : 0 ≤ t) (h10 : t ≤ 10) :
    slept (WaitHandler args) env st = [⌊t⌋ * 1000000000] ∧
    (WaitHandler args env st).1 = .ok ("Waited for " ++ fmtF1 t ++ " seconds") := by
  have hle : ¬ t > 10 := not_lt.2 h10
  have hf0 : 0 ≤ ⌊t⌋ := Int.floor_nonneg.2 h0
  have hf10 : ⌊t⌋ ≤ 10 := by
    have h := Int.floor_le_floor h10
    simpa using h
  have hconv : toInt64 env t = ⌊t⌋ := by
    rw [toInt64, truncate_of_nonneg t h0]
    rw [if_pos ⟨by omega, by omega⟩]
  have hwrap : wrap64 (⌊t⌋ * second) = ⌊t⌋ * 1000000000 := by
    simp only [wrap64, second]
    omega
  simp [slept, WaitHandler_num args env st t ht, hle, hconv, hwrap]

end RodMcp
